import Mathlib

/-!
Verification development for the gnark MPC KZG SRS translator.

The repository turns raw powers-of-tau ceremony transcripts of three
distinct ceremony formats into a gnark KZG SRS:

* format A (`main.go`, package `main`, and the identical package `aztec`):
  sequential BN254 transcripts with a 28-byte big-endian metadata header;
* format B (package `aleo`): BLS12-377 setup files split into G1 files and a
  G2 file selected by a "g2" marker in the file name;
* format C (package `celo`, `bw6761.go`): 256 chunked BW6-761 contribution
  files with a 64-byte leading hash.

Bytes are modelled as lists of natural numbers, files as pairs of a name and
a byte list (for format C also the size reported by `Stat`, which the code
reads separately from the content), and the gnark SRS as a record holding
the G1 point list, `Vk.G1`, the two `Vk.G2` slots and the two `Vk.Lines`
slots (pairing-line precomputation is an external library call; we record
the point it was invoked on).  Field elements are natural numbers below the
relevant prime modulus; the moduli are the gnark-crypto constants for
BN254, BLS12-377 and BW6-761.  Go functions returning `error` become
`Except String` values; functions that mutate the SRS through a pointer and
can fail after a partial mutation return the mutated SRS alongside the
error.  The curve generators returned by the external `Generators()` calls
are passed as explicit parameters.
-/

set_option maxRecDepth 10000

deriving instance DecidableEq for Except

namespace SRSVerify

/-- A byte stream: each entry is one byte value (0..255). -/
abbrev Bytes := List Nat

/-- Little-endian interpretation of a byte buffer as an unsigned integer. -/
def leBytesToNat : Bytes → Nat
  | [] => 0
  | b :: rest => b + 256 * leBytesToNat rest

/-- Big-endian interpretation of a byte buffer as an unsigned integer. -/
def beBytesToNat (bs : Bytes) : Nat :=
  bs.foldl (fun acc b => acc * 256 + b) 0

/-- Go `binary.BigEndian` decoding of 4 bytes as a two-complement `int32`. -/
def beInt32 (bs : Bytes) : Int :=
  let u := beBytesToNat (bs.take 4)
  if u < 2 ^ 31 then (u : Int) else (u : Int) - 2 ^ 32

/-- Little-endian encoding of a value in `width` bytes (low byte first). -/
def natToLeBytes : Nat → Nat → Bytes
  | 0, _ => []
  | Nat.succ k, v => v % 256 :: natToLeBytes k (v / 256)

/-- An affine curve point with coordinates in a prime field. -/
structure PointAff where
  X : Nat
  Y : Nat
deriving DecidableEq, Repr

/-- An affine point with coordinates in a quadratic extension field,
written as the four base-field components of the gnark `E2` coordinates. -/
structure PointE2 where
  X0 : Nat
  X1 : Nat
  Y0 : Nat
  Y1 : Nat
deriving DecidableEq, Repr

/-- The gnark `kzg.SRS` shape shared by all three curves: `Pk.G1`, `Vk.G1`,
the two `Vk.G2` slots, and the two `Vk.Lines` slots.  `Lines` records the
point handed to the external `PrecomputeLines` call (`none` = zero value,
never precomputed). -/
structure SRS (G2 : Type) where
  PkG1 : List PointAff
  VkG1 : PointAff
  VkG2_0 : G2
  VkG2_1 : G2
  Lines0 : Option G2
  Lines1 : Option G2
deriving DecidableEq, Repr

/-- BN254 base field modulus (gnark-crypto `ecc/bn254/fp`). -/
def pBn254 : Nat :=
  21888242871839275222246405745257275088696311157297823662689037894645226208583

/-- BLS12-377 base field modulus (gnark-crypto `ecc/bls12-377/fp`). -/
def pBls12377 : Nat :=
  258664426012969094010652733694893533536393512754914660539884262666720468348340822774968888139573360124440321458177

/-- BW6-761 base field modulus (gnark-crypto `ecc/bw6-761/fp`). -/
def pBw6761 : Nat :=
  6891450384315732539396789682275657542479668912536150109513790160209623422243491736087683183289411687640864567753786613451161759120554247759349511699125301598951605099378508850372543631423596795951899700429969112842764913119068299

/-- Whether a `Char` is an ASCII decimal digit. -/
def isDigitChar (c : Char) : Bool :=
  '0' ≤ c && c ≤ '9'

/-- True when `e` is an `Except.ok` value. -/
def exceptIsOk {ε α : Type} (e : Except ε α) : Bool :=
  match e with
  | .ok _ => true
  | .error _ => false

/-- True when `e` is an `Except.error` value. -/
def exceptIsErr {ε α : Type} (e : Except ε α) : Bool :=
  match e with
  | .ok _ => false
  | .error _ => true

/-- Substring test on character lists (Go `strings.Contains`). -/
def listContainsSub (sub : List Char) : List Char → Bool
  | [] => sub.isEmpty
  | c :: rest => sub.isPrefixOf (c :: rest) || listContainsSub sub rest

/-- Byte-wise lexicographic `<` on names (Go `strings.Compare(a, b) < 0`;
code-point order coincides with UTF-8 byte order). -/
def charListLt : List Char → List Char → Bool
  | [], [] => false
  | [], _ :: _ => true
  | _ :: _, [] => false
  | a :: as, b :: bs =>
    if a.toNat < b.toNat then true
    else if b.toNat < a.toNat then false
    else charListLt as bs

namespace Main

/-- The `TranscriptMetadata` header of `main.go`: seven big-endian `int32`
fields, 28 bytes in total. -/
structure TranscriptMetadata where
  TranscriptN : Int
  TotalTranscriptsN : Int
  TotalG1PointsN : Int
  TotalG2PointsN : Int
  G1PointsN : Int
  G2PointsN : Int
  StartFrom : Int
deriving DecidableEq, Repr

/-- `ReadMetadata`: `binary.Read` of the seven big-endian `int32` fields;
a stream shorter than 28 bytes is a read error. -/
def ReadMetadata (s : Bytes) : Except String (TranscriptMetadata × Bytes) :=
  if s.length < 28 then .error "unexpected EOF"
  else .ok
    ( { TranscriptN := beInt32 s
      , TotalTranscriptsN := beInt32 (s.drop 4)
      , TotalG1PointsN := beInt32 (s.drop 8)
      , TotalG2PointsN := beInt32 (s.drop 12)
      , G1PointsN := beInt32 (s.drop 16)
      , G2PointsN := beInt32 (s.drop 20)
      , StartFrom := beInt32 (s.drop 24) }
    , s.drop 28 )

/-- The word reordering of `extract32ByteFieldElement`: the Go copy loop
sets `reordered[i*8:(i+1)*8] = buf[(3-i)*8:(4-i)*8]` for `i = 0..3`,
reversing the order of the four 8-byte words. -/
def reorderWords (buf : Bytes) : Bytes :=
  (List.range 4).foldl (fun acc i => acc ++ (buf.drop ((3 - i) * 8)).take 8) []

/-- `extract32ByteFieldElement` of `main.go` (and the identical function of
package `aztec`): `io.ReadFull` of 32 bytes, reversal of the four 8-byte
words, then gnark `fp.Element.SetBytes`, which interprets the buffer as a
big-endian integer and reduces it modulo the BN254 modulus (it never
rejects an out-of-range value). -/
def extract32ByteFieldElement (s : Bytes) : Except String (Nat × Bytes) :=
  if s.length < 32 then .error "unexpected EOF"
  else .ok (beBytesToNat (reorderWords (s.take 32)) % pBn254, s.drop 32)

/-- The loop body of `ReadG1Points`, with the remaining iteration count as
fuel (`ReadG1Points` runs `for i := 0; i < n; i++`). -/
def ReadG1PointsAux : Nat → Bytes → SRS PointE2 → Except String (SRS PointE2 × Bytes)
  | 0, s, srs => .ok (srs, s)
  | Nat.succ k, s, srs =>
    match extract32ByteFieldElement s with
    | .error e => .error ("failed to read x-coordinate: " ++ e)
    | .ok (x, s1) =>
      match extract32ByteFieldElement s1 with
      | .error e => .error ("failed to read y-coordinate: " ++ e)
      | .ok (y, s2) =>
        ReadG1PointsAux k s2 { srs with PkG1 := srs.PkG1 ++ [PointAff.mk x y] }

/-- `ReadG1Points`: reads `n` G1 points (two field elements each) and
appends them to `srs.Pk.G1`.  A non-positive `n` reads nothing (the Go
loop condition `i < n` fails immediately). -/
def ReadG1Points (n : Int) (s : Bytes) (srs : SRS PointE2) :
    Except String (SRS PointE2 × Bytes) :=
  ReadG1PointsAux n.toNat s srs

/-- `ReadG2Points`: skips the 128-byte first G2 point (`io.CopyN`, which
fails when fewer than 128 bytes remain), then decodes the four field
elements of the second G2 point into `Vk.G2[1]`. -/
def ReadG2Points (s : Bytes) (srs : SRS PointE2) :
    Except String (SRS PointE2 × Bytes) :=
  if s.length < 128 then .error "failed to skip the first G2 point"
  else
    let s0 := s.drop 128
    match extract32ByteFieldElement s0 with
    | .error e => .error ("failed to read x-coordinate part A0: " ++ e)
    | .ok (x1, s1) =>
      match extract32ByteFieldElement s1 with
      | .error e => .error ("failed to read x-coordinate part A1: " ++ e)
      | .ok (x2, s2) =>
        match extract32ByteFieldElement s2 with
        | .error e => .error ("failed to read y-coordinate part A0: " ++ e)
        | .ok (y1, s3) =>
          match extract32ByteFieldElement s3 with
          | .error e => .error ("failed to read y-coordinate part A1: " ++ e)
          | .ok (y2, s4) =>
            .ok ({ srs with VkG2_1 := PointE2.mk x1 x2 y1 y2 }, s4)

/-- `ReadTranscriptFile`: metadata header, `G1PointsN` G1 points, and - when
`G2PointsN` is non-zero - the G2 record.  The trailing checksum is skipped
by the code. -/
def ReadTranscriptFile (content : Bytes) (srs : SRS PointE2) :
    Except String (SRS PointE2) :=
  match ReadMetadata content with
  | .error e => .error ("failed to read metadata: " ++ e)
  | .ok (metadata, s) =>
    match ReadG1Points metadata.G1PointsN s srs with
    | .error e => .error ("failed to read G1 points: " ++ e)
    | .ok (srs1, s1) =>
      if metadata.G2PointsN ≠ 0 then
        match ReadG2Points s1 srs1 with
        | .error e => .error ("failed to read G2 points: " ++ e)
        | .ok (srs2, _) => .ok srs2
      else .ok srs1

/-- The filename filter `^transcript[0-9]{1,2}.dat$` (the dot is an
unescaped any-character): after the literal `transcript`, either one digit
or two digits, one arbitrary character, then `dat`, end of name. -/
def transcriptTailMatch : List Char → Bool
  | [d1, _, 'd', 'a', 't'] => isDigitChar d1
  | [d1, d2, _, 'd', 'a', 't'] => isDigitChar d1 && isDigitChar d2
  | _ => false

/-- Whether a file name matches the `fileRegexp` of `main.go`. -/
def transcriptNameMatch (name : String) : Bool :=
  match name.toList with
  | 't' :: 'r' :: 'a' :: 'n' :: 's' :: 'c' :: 'r' :: 'i' :: 'p' :: 't' :: rest =>
    transcriptTailMatch rest
  | _ => false

/-- The SRS value `ConstructSRS` builds before reading any file:
`Pk.G1 = [gen1]`, `Vk.G1 = gen1`, `Vk.G2[0] = gen2`, everything else the Go
zero value. -/
def initBnSRS (gen1 : PointAff) (gen2 : PointE2) : SRS PointE2 :=
  { PkG1 := [gen1]
  , VkG1 := gen1
  , VkG2_0 := gen2
  , VkG2_1 := PointE2.mk 0 0 0 0
  , Lines0 := none
  , Lines1 := none }

/-- The file loop of `ConstructSRS`: files not matching the name filter are
skipped; a failing transcript read aborts the whole run. -/
def ConstructSRSLoop :
    List (String × Bytes) → SRS PointE2 → Nat → Except String (SRS PointE2 × Nat)
  | [], srs, numProcessed => .ok (srs, numProcessed)
  | (name, content) :: rest, srs, numProcessed =>
    if transcriptNameMatch name then
      match ReadTranscriptFile content srs with
      | .error e => .error ("failed to read transcript file: " ++ e)
      | .ok srs1 => ConstructSRSLoop rest srs1 (numProcessed + 1)
    else ConstructSRSLoop rest srs numProcessed

/-- `ConstructSRS`: seeds the SRS with the generators, folds the transcript
files in directory-listing order, warns (boolean result) when the number of
processed files is not 20, and precomputes the pairing lines of both
`Vk.G2` slots. -/
def ConstructSRS (gen1 : PointAff) (gen2 : PointE2) (files : List (String × Bytes)) :
    Except String (SRS PointE2 × Bool) :=
  match ConstructSRSLoop files (initBnSRS gen1 gen2) 0 with
  | .error e => .error e
  | .ok (srs, numProcessed) =>
    .ok ({ srs with Lines0 := some srs.VkG2_0, Lines1 := some srs.VkG2_1 }
        , numProcessed ≠ 20)

/-- The `G1PointsN` metadata field of a file content (0 when the header does
not parse). -/
def fileG1PointsN (content : Bytes) : Int :=
  match ReadMetadata content with
  | .ok (m, _) => m.G1PointsN
  | .error _ => 0

/-- Pure decoder for a run of `n` G1 points, mirroring the reads of
`ReadG1Points`. -/
def decodeG1List : Nat → Bytes → Option (List PointAff × Bytes)
  | 0, s => some ([], s)
  | Nat.succ k, s =>
    match extract32ByteFieldElement s with
    | .error _ => none
    | .ok (x, s1) =>
      match extract32ByteFieldElement s1 with
      | .error _ => none
      | .ok (y, s2) =>
        match decodeG1List k s2 with
        | none => none
        | some (pts, s3) => some (PointAff.mk x y :: pts, s3)

/-- The G1 points a transcript file contributes (empty when parsing fails). -/
def filePoints (content : Bytes) : List PointAff :=
  match ReadMetadata content with
  | .error _ => []
  | .ok (m, s) =>
    match decodeG1List m.G1PointsN.toNat s with
    | some (pts, _) => pts
    | none => []

/-- The files of a directory listing that pass the transcript name filter. -/
def matchedFiles (files : List (String × Bytes)) : List (String × Bytes) :=
  files.filter (fun f => transcriptNameMatch f.1)

end Main

namespace Aleo

/-- `extract48ByteFieldElement` of package `aleo`: `io.ReadFull` of 48
bytes, then gnark `fp.LittleEndian.Element`, which interprets the buffer as
a little-endian integer and rejects any value not below the BLS12-377
modulus. -/
def extract48ByteFieldElement (s : Bytes) : Except String (Nat × Bytes) :=
  if s.length < 48 then .error "failed to read 48 bytes"
  else
    let v := leBytesToNat (s.take 48)
    if v < pBls12377 then .ok (v, s.drop 48)
    else .error "failed to convert bytes to field element: invalid encoding"

/-- The loop body of the `aleo` `readG1Points` (the count is a `uint64`). -/
def readG1PointsAux : Nat → Bytes → SRS PointE2 → Except String (SRS PointE2 × Bytes)
  | 0, s, srs => .ok (srs, s)
  | Nat.succ k, s, srs =>
    match extract48ByteFieldElement s with
    | .error e => .error ("failed to read x-coordinate: " ++ e)
    | .ok (x, s1) =>
      match extract48ByteFieldElement s1 with
      | .error e => .error ("failed to read y-coordinate: " ++ e)
      | .ok (y, s2) =>
        readG1PointsAux k s2 { srs with PkG1 := srs.PkG1 ++ [PointAff.mk x y] }

/-- `readG1SetupFile`: an 8-byte little-endian point count, then that many
G1 points appended to `srs.Pk.G1`. -/
def readG1SetupFile (content : Bytes) (srs : SRS PointE2) :
    Except String (SRS PointE2) :=
  if content.length < 8 then .error "failed to read number of points"
  else
    let pointsN := leBytesToNat (content.take 8)
    match readG1PointsAux pointsN (content.drop 8) srs with
    | .error e => .error ("failed to read G1 points: " ++ e)
    | .ok (srs1, _) => .ok srs1

/-- `readG2SetupFile`: decodes four 48-byte field elements from the start
of the file (`X.A0`, `X.A1`, `Y.A0`, `Y.A1`) and stores the point in
`Vk.G2[1]`.  No header or count block is read. -/
def readG2SetupFile (content : Bytes) (srs : SRS PointE2) :
    Except String (SRS PointE2) :=
  match extract48ByteFieldElement content with
  | .error e => .error ("failed to read x-coordinate c0: " ++ e)
  | .ok (x1, s1) =>
    match extract48ByteFieldElement s1 with
    | .error e => .error ("failed to read x-coordinate c1: " ++ e)
    | .ok (x2, s2) =>
      match extract48ByteFieldElement s2 with
      | .error e => .error ("failed to read y-coordinate c0: " ++ e)
      | .ok (y1, s3) =>
        match extract48ByteFieldElement s3 with
        | .error e => .error ("failed to read y-coordinate c1: " ++ e)
        | .ok (y2, _) => .ok { srs with VkG2_1 := PointE2.mk x1 x2 y1 y2 }

/-- Modelled from the spec, for comparison against `readG2SetupFile` (this
definition follows the words of the specification, not the source): treat
the whole g2-marked file as a single G2-point record, decode the first
field-element-sized block as header metadata (a little-endian 8-byte point
count, padded to the 48-byte element width), then decode the point and
store it in `G2[1]`. -/
def readG2SetupFileSpecModel (content : Bytes) (srs : SRS PointE2) :
    Except String (SRS PointE2) :=
  if content.length < 48 then .error "failed to read header"
  else
    let _pointsN := leBytesToNat (content.take 8)
    let s0 := content.drop 48
    match extract48ByteFieldElement s0 with
    | .error e => .error ("failed to read x-coordinate c0: " ++ e)
    | .ok (x1, s1) =>
      match extract48ByteFieldElement s1 with
      | .error e => .error ("failed to read x-coordinate c1: " ++ e)
      | .ok (x2, s2) =>
        match extract48ByteFieldElement s2 with
        | .error e => .error ("failed to read y-coordinate c0: " ++ e)
        | .ok (y1, s3) =>
          match extract48ByteFieldElement s3 with
          | .error e => .error ("failed to read y-coordinate c1: " ++ e)
          | .ok (y2, _) => .ok { srs with VkG2_1 := PointE2.mk x1 x2 y1 y2 }

/-- Whether the lowercased file name contains the `g2` marker
(`strings.Contains(strings.ToLower(fileName), "g2")`). -/
def nameHasG2Marker (name : String) : Bool :=
  listContainsSub ['g', '2'] (name.toList.map Char.toLower)

/-- The per-file dispatch of `TranslateBls12377SRS`: a file whose lowercased
name contains `g2` goes to `readG2SetupFile`, every other file to
`readG1SetupFile`. -/
def processAleoFile (name : String) (content : Bytes) (srs : SRS PointE2) :
    Except String (SRS PointE2) :=
  if nameHasG2Marker name then readG2SetupFile content srs
  else readG1SetupFile content srs

/-- The SRS value `TranslateBls12377SRS` builds before reading any file. -/
def initBlsSRS (gen1 : PointAff) (gen2 : PointE2) : SRS PointE2 :=
  { PkG1 := [gen1]
  , VkG1 := gen1
  , VkG2_0 := gen2
  , VkG2_1 := PointE2.mk 0 0 0 0
  , Lines0 := none
  , Lines1 := none }

/-- Insert a file into a list sorted by lowercased name. -/
def insertFileByName (f : String × Bytes) : List (String × Bytes) → List (String × Bytes)
  | [] => [f]
  | g :: rest =>
    if charListLt (g.1.toList.map Char.toLower) (f.1.toList.map Char.toLower) then
      g :: insertFileByName f rest
    else f :: g :: rest

/-- The case-insensitive name sort of `TranslateBls12377SRS`
(`slices.SortFunc` with `strings.Compare` on lowercased names).  The Go
sort is unstable, so the order of names with equal lowercased forms is
unspecified there; this deterministic insertion sort realises one of the
permitted orders. -/
def sortFilesByLowerName : List (String × Bytes) → List (String × Bytes)
  | [] => []
  | f :: rest => insertFileByName f (sortFilesByLowerName rest)

/-- The file loop of `TranslateBls12377SRS`: every file is dispatched by
the `g2` name marker; any failure aborts the whole run. -/
def translateBlsLoop : List (String × Bytes) → SRS PointE2 → Nat → Except String (SRS PointE2 × Nat)
  | [], srs, numProcessed => .ok (srs, numProcessed)
  | (name, content) :: rest, srs, numProcessed =>
    match processAleoFile name content srs with
    | .error e => .error ("failed to read setup file: " ++ e)
    | .ok srs1 => translateBlsLoop rest srs1 (numProcessed + 1)

/-- `TranslateBls12377SRS`: seed the SRS with the generators, sort the
files case-insensitively by name, fold them through the per-file dispatch,
precompute the pairing lines of both `Vk.G2` slots and return the SRS with
its G1 point count. -/
def TranslateBls12377SRS (gen1 : PointAff) (gen2 : PointE2)
    (files : List (String × Bytes)) : Except String (SRS PointE2 × Nat) :=
  match translateBlsLoop (sortFilesByLowerName files) (initBlsSRS gen1 gen2) 0 with
  | .error e => .error e
  | .ok (srs, _) =>
    .ok ({ srs with Lines0 := some srs.VkG2_0, Lines1 := some srs.VkG2_1 }
        , srs.PkG1.length)

end Aleo

namespace Celo

/-- Hash size at the beginning of each chunk file. -/
def HashSize : Nat := 64

/-- BW6-761 field element size in bytes. -/
def PointCoordinateSize : Nat := 96

/-- Size of an uncompressed BW6-761 G1 point (two coordinates). -/
def G1PointSize : Nat := 192

/-- Size of an uncompressed BW6-761 G2 point (same as G1 for BW6-761). -/
def G2PointSize : Nat := 192

/-- Total number of chunks dividing the full SRS. -/
def TotalChunks : Nat := 256

/-- Chunks below this index carry tau_g1, tau_g2, alpha_g1 and beta_g1;
chunks at or above it carry only tau_g1 plus one beta_g2 point. -/
def ChunkHalfwayPoint : Nat := 128

/-- `extractBw6FieldElement`: exactly 96 bytes, then gnark
`fp.LittleEndian.Element`, which rejects any value not below the BW6-761
modulus. -/
def extractBw6FieldElement (data : Bytes) : Except String Nat :=
  if data.length ≠ PointCoordinateSize then
    .error "wrong byte count for BW6-761 field element"
  else
    let v := leBytesToNat data
    if v < pBw6761 then .ok v
    else .error "failed to convert bytes to field element: invalid encoding"

/-- gnark `IsInfinity` on an affine point: both coordinates zero. -/
def isInfinityPoint (P : PointAff) : Bool :=
  P.X == 0 && P.Y == 0

/-- gnark `G1Affine.IsOnCurve` for BW6-761: the curve is `y^2 = x^3 - 1`
over the base field. -/
def isOnCurveG1 (P : PointAff) : Bool :=
  (P.Y * P.Y) % pBw6761 == (P.X * P.X * P.X + (pBw6761 - 1)) % pBw6761

/-- gnark `G2Affine.IsOnCurve` for BW6-761: the twist is `y^2 = x^3 + 4`
over the same base field. -/
def isOnCurveG2 (P : PointAff) : Bool :=
  (P.Y * P.Y) % pBw6761 == (P.X * P.X * P.X + 4) % pBw6761

/-- The 192-byte on-disk encoding of a BW6-761 G1 point: both coordinates
as 96-byte little-endian field elements. -/
def encodeG1Point (pt : PointAff) : Bytes :=
  natToLeBytes 96 pt.X ++ natToLeBytes 96 pt.Y

/-- The concatenated on-disk encoding of a run of G1 points. -/
def encodeG1Points (l : List PointAff) : Bytes :=
  (l.map encodeG1Point).flatten

/-- `calculateChunkSize`: Go `int64` division truncates toward zero
(`Int.tdiv`).  Lower-half chunks devote a quarter of the bytes after the
hash to tau_g1 points; upper-half chunks devote everything after the hash
minus one trailing beta_g2 point. -/
def calculateChunkSize (chunkNum : Nat) (fileSize : Int) : Int :=
  if chunkNum < ChunkHalfwayPoint then
    Int.tdiv (fileSize - (HashSize : Int)) (4 * (G1PointSize : Int))
  else
    Int.tdiv (fileSize - (HashSize : Int)) (G1PointSize : Int) - 1

/-- The G1 loop of `processChunk`.  The fuel is the remaining iteration
count, `i` the current index.  Go `io.ReadFull` semantics: an empty stream
yields `io.EOF`, a partial buffer `io.ErrUnexpectedEOF` (consuming the
partial bytes).  `io.EOF` at `i = 0` aborts; any other EOF prints a warning
and breaks; a decode failure, an identity point or an off-curve point
aborts.  Returns the (possibly partially appended) SRS, the remaining
stream, whether a warning was printed, and the error if one aborted. -/
def processG1Loop :
    Nat → Nat → Bytes → SRS PointAff → SRS PointAff × Bytes × Bool × Option String
  | 0, _, s, srs => (srs, s, false, none)
  | Nat.succ fuel, i, s, srs =>
    if s.length == 0 then
      if i == 0 then (srs, s, false, some "unexpected EOF at beginning of file")
      else (srs, s, true, none)
    else if s.length < G1PointSize then (srs, [], true, none)
    else
      let buffer := s.take G1PointSize
      let s1 := s.drop G1PointSize
      match extractBw6FieldElement (buffer.take PointCoordinateSize) with
      | .error e => (srs, s1, false, some ("failed to extract x coordinate: " ++ e))
      | .ok x =>
        match extractBw6FieldElement (buffer.drop PointCoordinateSize) with
        | .error e => (srs, s1, false, some ("failed to extract y coordinate: " ++ e))
        | .ok y =>
          let point := PointAff.mk x y
          if isInfinityPoint point || !isOnCurveG1 point then
            (srs, s1, false, some "point is not on curve or infinity")
          else
            processG1Loop fuel (i + 1) s1 { srs with PkG1 := srs.PkG1 ++ [point] }

/-- The chunk-0 G2 section of `processChunk`: read and validate the G2
generator (on-curve and equal to the expected generator), then read the
tau-G2 point (on-curve) and store it in `Vk.G2[1]`.  Any short read here is
an error. -/
def processG2Section (gen2 : PointAff) (s : Bytes) (srs : SRS PointAff) :
    Except String (SRS PointAff) :=
  if s.length < G2PointSize then .error "failed to read G2 generator"
  else
    let buf := s.take G2PointSize
    let s1 := s.drop G2PointSize
    match extractBw6FieldElement (buf.take PointCoordinateSize) with
    | .error e => .error ("failed to parse G2 generator X coordinate: " ++ e)
    | .ok gx =>
      match extractBw6FieldElement (buf.drop PointCoordinateSize) with
      | .error e => .error ("failed to parse G2 generator Y coordinate: " ++ e)
      | .ok gy =>
        let g2Generator := PointAff.mk gx gy
        if !isOnCurveG2 g2Generator then .error "G2 generator point is not on curve"
        else if g2Generator ≠ gen2 then
          .error "G2 generator in file does not match expected generator"
        else if s1.length < G2PointSize then .error "failed to read tau G2"
        else
          let buf2 := s1.take G2PointSize
          match extractBw6FieldElement (buf2.take PointCoordinateSize) with
          | .error e => .error ("failed to parse tau G2 X coordinate: " ++ e)
          | .ok tx =>
            match extractBw6FieldElement (buf2.drop PointCoordinateSize) with
            | .error e => .error ("failed to parse tau G2 Y coordinate: " ++ e)
            | .ok ty =>
              let tauG2 := PointAff.mk tx ty
              if !isOnCurveG2 tauG2 then .error "tau G2 point is not on curve"
              else .ok { srs with VkG2_1 := tauG2 }

/-- The outcome of `processChunk`: the SRS (mutated in place by the Go
code, so points appended before a failure persist), whether an EOF warning
was printed, and the returned error if any. -/
structure ChunkResult where
  srs : SRS PointAff
  warned : Bool
  err : Option String
deriving DecidableEq, Repr

/-- `processChunk`: seek past the 64-byte hash (seeking past the end of the
file succeeds), compute the point count from the `Stat` file size, run the
G1 loop, and for chunk 0 additionally process the G2 section. -/
def processChunk (gen2 : PointAff) (chunkNum : Nat) (fileSize : Int)
    (content : Bytes) (srs : SRS PointAff) : ChunkResult :=
  let s := content.drop HashSize
  let chunkSize := calculateChunkSize chunkNum fileSize
  match processG1Loop chunkSize.toNat 0 s srs with
  | (srs1, _, warned, some e) => ChunkResult.mk srs1 warned (some e)
  | (srs1, s1, warned, none) =>
    if chunkNum == 0 then
      match processG2Section gen2 s1 srs1 with
      | .error e => ChunkResult.mk srs1 warned (some e)
      | .ok srs2 => ChunkResult.mk srs2 warned none
    else ChunkResult.mk srs1 warned none

/-- Maximal digit prefix of a character list and the rest. -/
def digitRun : List Char → List Char × List Char
  | [] => ([], [])
  | c :: rest =>
    if isDigitChar c then
      let (run, r) := digitRun rest
      (c :: run, r)
    else ([], c :: rest)

/-- Decimal value of a digit list. -/
def digitsToNat (ds : List Char) : Nat :=
  ds.foldl (fun acc c => acc * 10 + (c.toNat - 48)) 0

/-- Go `strconv.Atoi` on a captured digit string: the decimal value, or the
`ErrRange` failure when the value does not fit a 64-bit `int` (a digit run
denoting a value at or above `2 ^ 63` makes `Atoi` return an error, which
`TranslateBw6761SRS` turns into an abort of the whole run). -/
def atoiDigits (ds : List Char) : Except String Nat :=
  if digitsToNat ds < 2 ^ 63 then .ok (digitsToNat ds)
  else .error "value out of range"

/-- Attempt to match the pattern of `ChunkNumberRegexp`
(`\d+\.(\d+)\..*`) at the current position: a digit run, a dot, the
captured digit run, a dot, anything.  Returns the captured digit string
(the `matches[1]` hand to `strconv.Atoi`). -/
def matchChunkAt (s : List Char) : Option (List Char) :=
  let (d1, r1) := digitRun s
  if d1.isEmpty then none
  else
    match r1 with
    | '.' :: r2 =>
      let (d2, r3) := digitRun r2
      if d2.isEmpty then none
      else
        match r3 with
        | '.' :: _ => some d2
        | _ => none
    | _ => none

/-- Leftmost match of `ChunkNumberRegexp` in a name
(`fileRegexp.FindStringSubmatch`); `none` when the name has no match and is
skipped. -/
def findChunkCapture : List Char → Option (List Char)
  | [] => none
  | c :: rest =>
    match matchChunkAt (c :: rest) with
    | some ds => some ds
    | none => findChunkCapture rest

/-- Lookup in the chunk selection table. -/
def tableGet (t : List (Nat × String)) (k : Nat) : Option String :=
  match t.find? (fun e => e.1 == k) with
  | some e => some e.2
  | none => none

/-- Insert or overwrite a chunk table entry. -/
def tableSet (t : List (Nat × String)) (k : Nat) (v : String) : List (Nat × String) :=
  match t.find? (fun e => e.1 == k) with
  | none => t ++ [(k, v)]
  | some _ => t.map (fun e => if e.1 == k then (k, v) else e)

/-- The chunk-file scan loop of `TranslateBw6761SRS`: names without a
regexp match are skipped; a captured digit string that `strconv.Atoi`
rejects (out of the 64-bit `int` range) aborts the whole run; otherwise
the table keeps, per chunk, the lexicographically greatest file name
(the latest contribution). -/
def selectChunkFilesLoop : List String → List (Nat × String) → Except String (List (Nat × String))
  | [], table => .ok table
  | name :: rest, table =>
    match findChunkCapture name.toList with
    | none => selectChunkFilesLoop rest table
    | some ds =>
      match atoiDigits ds with
      | .error e =>
        .error ("failed to parse chunk number from filename " ++ name ++ ": " ++ e)
      | .ok chunkNum =>
        match tableGet table chunkNum with
        | none => selectChunkFilesLoop rest (tableSet table chunkNum name)
        | some existingFile =>
          if charListLt existingFile.toList name.toList then
            selectChunkFilesLoop rest (tableSet table chunkNum name)
          else selectChunkFilesLoop rest table

/-- The chunk-file scan of `TranslateBw6761SRS`, over the full directory
listing. -/
def selectChunkFiles (names : List String) : Except String (List (Nat × String)) :=
  selectChunkFilesLoop names []

/-- The filesystem as seen by the format-C reader: a file name resolves to
the size reported by `Stat` and the byte content (two separate observations
of the file, as the code makes them), or to `none` when opening fails. -/
abbrev FileSys := String → Option (Int × Bytes)

/-- The chunk loop of `TranslateBw6761SRS`: chunks 0..255 in order; a
missing chunk aborts; a failing `processChunk` - and likewise an open
failure inside `processChunk` - is only logged (the chunk number is
appended to the failed list) and the loop continues with the SRS as the
failed call left it (an open failure happens before any mutation). -/
def translateLoop (gen2 : PointAff) (table : List (Nat × String)) (fs : FileSys) :
    Nat → Nat → SRS PointAff → List Nat → Except String (SRS PointAff × List Nat)
  | 0, _, srs, failed => .ok (srs, failed)
  | Nat.succ fuel, chunkNum, srs, failed =>
    match tableGet table chunkNum with
    | none => .error ("missing chunk file for chunk " ++ toString chunkNum)
    | some name =>
      match fs name with
      | none => translateLoop gen2 table fs fuel (chunkNum + 1) srs (failed ++ [chunkNum])
      | some (fileSize, content) =>
        match processChunk gen2 chunkNum fileSize content srs with
        | ChunkResult.mk srs1 _ (some _) =>
          translateLoop gen2 table fs fuel (chunkNum + 1) srs1 (failed ++ [chunkNum])
        | ChunkResult.mk srs1 _ none =>
          translateLoop gen2 table fs fuel (chunkNum + 1) srs1 failed

/-- The SRS value `TranslateBw6761SRS` builds before reading any file:
`Pk.G1` starts empty (`make(..., 0)`), only `Vk.G1` and `Vk.G2[0]` are
seeded with the generators. -/
def initBw6SRS (gen1 gen2 : PointAff) : SRS PointAff :=
  { PkG1 := []
  , VkG1 := gen1
  , VkG2_0 := gen2
  , VkG2_1 := PointAff.mk 0 0
  , Lines0 := none
  , Lines1 := none }

/-- `TranslateBw6761SRS`: build the chunk selection table from the
directory listing (aborting on an `Atoi` parse failure), run the chunk
loop, precompute the line of `Vk.G2[0]` and, when `Vk.G2[1]` is not the
point at infinity, of `Vk.G2[1]`.  Returns the SRS, the G1 point count and
the chunk numbers whose processing failure was logged. -/
def TranslateBw6761SRS (gen1 gen2 : PointAff) (names : List String) (fs : FileSys) :
    Except String (SRS PointAff × Nat × List Nat) :=
  match selectChunkFiles names with
  | .error e => .error e
  | .ok table =>
    match translateLoop gen2 table fs TotalChunks 0 (initBw6SRS gen1 gen2) [] with
    | .error e => .error e
    | .ok (srs, failed) =>
      let srs1 :=
        { srs with
          Lines0 := some srs.VkG2_0
        , Lines1 := if isInfinityPoint srs.VkG2_1 then srs.Lines1 else some srs.VkG2_1 }
      .ok (srs1, srs1.PkG1.length, failed)

/-- Whether a run failed with the missing-chunk error. -/
def isMissingChunkErr {α : Type} (e : Except String α) : Bool :=
  match e with
  | .error s => ("missing chunk file for chunk ".toList).isPrefixOf s.toList
  | .ok _ => false

end Celo

/-! ### Concrete inputs used by the counterexamples and witnesses -/

/-- A 32-byte buffer whose last byte (the final byte of word `w3`) is 1. -/
def bufC3 : Bytes := List.replicate 31 0 ++ [1]

/-- A format-A transcript file whose header carries `G1PointsN = -1`
(bytes 16..19 are `0xFFFFFFFF`) and `G2PointsN = 0`, with no point data. -/
def contentNeg : Bytes :=
  [0, 0, 0, 0, 0, 0, 0, 20, 0, 0, 0, 0, 0, 0, 0, 0,
   255, 255, 255, 255, 0, 0, 0, 0, 0, 0, 0, 0]

/-- A valid format-A transcript file: header with `G1PointsN = 1` and
`G2PointsN = 0`, followed by one G1 point of 64 zero bytes. -/
def contentOnePoint : Bytes :=
  [0, 0, 0, 0, 0, 0, 0, 20, 0, 0, 0, 0, 0, 0, 0, 0,
   0, 0, 0, 1, 0, 0, 0, 0, 0, 0, 0, 0] ++ List.replicate 64 0

/-- A format-B g2 file of five 48-byte little-endian field elements with
values 1, 2, 3, 4, 5: under the source the point is read from the first
four blocks, under the spec model from the four blocks after the header. -/
def contentC7 : Bytes :=
  (1 :: List.replicate 47 0) ++ (2 :: List.replicate 47 0) ++
  (3 :: List.replicate 47 0) ++ (4 :: List.replicate 47 0) ++
  (5 :: List.replicate 47 0)

/-- A format-C chunk file whose first tau_g1 point has an x-coordinate of
96 `0xFF` bytes, a value above the BW6-761 modulus, so its first point
fails to decode as a malformed element. -/
def badChunkContent : Bytes :=
  List.replicate 64 0 ++ List.replicate 96 255 ++ List.replicate 96 0

/-- The names of 256 chunk files `1.0.a`, `1.1.a`, ..., `1.255.a`. -/
def c1Names : List String :=
  ["1.0.a", "1.1.a", "1.2.a", "1.3.a", "1.4.a", "1.5.a", "1.6.a", "1.7.a", "1.8.a", "1.9.a",
   "1.10.a", "1.11.a", "1.12.a", "1.13.a", "1.14.a", "1.15.a", "1.16.a", "1.17.a", "1.18.a",
   "1.19.a", "1.20.a", "1.21.a", "1.22.a", "1.23.a", "1.24.a", "1.25.a", "1.26.a", "1.27.a",
   "1.28.a", "1.29.a", "1.30.a", "1.31.a", "1.32.a", "1.33.a", "1.34.a", "1.35.a", "1.36.a",
   "1.37.a", "1.38.a", "1.39.a", "1.40.a", "1.41.a", "1.42.a", "1.43.a", "1.44.a", "1.45.a",
   "1.46.a", "1.47.a", "1.48.a", "1.49.a", "1.50.a", "1.51.a", "1.52.a", "1.53.a", "1.54.a",
   "1.55.a", "1.56.a", "1.57.a", "1.58.a", "1.59.a", "1.60.a", "1.61.a", "1.62.a", "1.63.a",
   "1.64.a", "1.65.a", "1.66.a", "1.67.a", "1.68.a", "1.69.a", "1.70.a", "1.71.a", "1.72.a",
   "1.73.a", "1.74.a", "1.75.a", "1.76.a", "1.77.a", "1.78.a", "1.79.a", "1.80.a", "1.81.a",
   "1.82.a", "1.83.a", "1.84.a", "1.85.a", "1.86.a", "1.87.a", "1.88.a", "1.89.a", "1.90.a",
   "1.91.a", "1.92.a", "1.93.a", "1.94.a", "1.95.a", "1.96.a", "1.97.a", "1.98.a", "1.99.a",
   "1.100.a", "1.101.a", "1.102.a", "1.103.a", "1.104.a", "1.105.a", "1.106.a", "1.107.a",
   "1.108.a", "1.109.a", "1.110.a", "1.111.a", "1.112.a", "1.113.a", "1.114.a", "1.115.a",
   "1.116.a", "1.117.a", "1.118.a", "1.119.a", "1.120.a", "1.121.a", "1.122.a", "1.123.a",
   "1.124.a", "1.125.a", "1.126.a", "1.127.a", "1.128.a", "1.129.a", "1.130.a", "1.131.a",
   "1.132.a", "1.133.a", "1.134.a", "1.135.a", "1.136.a", "1.137.a", "1.138.a", "1.139.a",
   "1.140.a", "1.141.a", "1.142.a", "1.143.a", "1.144.a", "1.145.a", "1.146.a", "1.147.a",
   "1.148.a", "1.149.a", "1.150.a", "1.151.a", "1.152.a", "1.153.a", "1.154.a", "1.155.a",
   "1.156.a", "1.157.a", "1.158.a", "1.159.a", "1.160.a", "1.161.a", "1.162.a", "1.163.a",
   "1.164.a", "1.165.a", "1.166.a", "1.167.a", "1.168.a", "1.169.a", "1.170.a", "1.171.a",
   "1.172.a", "1.173.a", "1.174.a", "1.175.a", "1.176.a", "1.177.a", "1.178.a", "1.179.a",
   "1.180.a", "1.181.a", "1.182.a", "1.183.a", "1.184.a", "1.185.a", "1.186.a", "1.187.a",
   "1.188.a", "1.189.a", "1.190.a", "1.191.a", "1.192.a", "1.193.a", "1.194.a", "1.195.a",
   "1.196.a", "1.197.a", "1.198.a", "1.199.a", "1.200.a", "1.201.a", "1.202.a", "1.203.a",
   "1.204.a", "1.205.a", "1.206.a", "1.207.a", "1.208.a", "1.209.a", "1.210.a", "1.211.a",
   "1.212.a", "1.213.a", "1.214.a", "1.215.a", "1.216.a", "1.217.a", "1.218.a", "1.219.a",
   "1.220.a", "1.221.a", "1.222.a", "1.223.a", "1.224.a", "1.225.a", "1.226.a", "1.227.a",
   "1.228.a", "1.229.a", "1.230.a", "1.231.a", "1.232.a", "1.233.a", "1.234.a", "1.235.a",
   "1.236.a", "1.237.a", "1.238.a", "1.239.a", "1.240.a", "1.241.a", "1.242.a", "1.243.a",
   "1.244.a", "1.245.a", "1.246.a", "1.247.a", "1.248.a", "1.249.a", "1.250.a", "1.251.a",
   "1.252.a", "1.253.a", "1.254.a", "1.255.a"]

/-- A filesystem where every file is reported as 832 bytes by `Stat`;
chunk 0 gets `badChunkContent` (its first point is a malformed element)
and every other file has empty content (a truncated read, EOF at the
beginning of the file), so every chunk fails. -/
def fsC1 : Celo.FileSys := fun name =>
  if name = "1.0.a" then some (832, badChunkContent) else some (832, [])

/-- The chunk selection table the scan builds for `c1Names`. -/
def c1Table : List (Nat × String) :=
  [(0, "1.0.a"), (1, "1.1.a"), (2, "1.2.a"), (3, "1.3.a"), (4, "1.4.a"), (5, "1.5.a"), (6,
   "1.6.a"), (7, "1.7.a"), (8, "1.8.a"), (9, "1.9.a"), (10, "1.10.a"), (11, "1.11.a"), (12,
   "1.12.a"), (13, "1.13.a"), (14, "1.14.a"), (15, "1.15.a"), (16, "1.16.a"), (17, "1.17.a"),
   (18, "1.18.a"), (19, "1.19.a"), (20, "1.20.a"), (21, "1.21.a"), (22, "1.22.a"), (23,
   "1.23.a"), (24, "1.24.a"), (25, "1.25.a"), (26, "1.26.a"), (27, "1.27.a"), (28, "1.28.a"),
   (29, "1.29.a"), (30, "1.30.a"), (31, "1.31.a"), (32, "1.32.a"), (33, "1.33.a"), (34,
   "1.34.a"), (35, "1.35.a"), (36, "1.36.a"), (37, "1.37.a"), (38, "1.38.a"), (39, "1.39.a"),
   (40, "1.40.a"), (41, "1.41.a"), (42, "1.42.a"), (43, "1.43.a"), (44, "1.44.a"), (45,
   "1.45.a"), (46, "1.46.a"), (47, "1.47.a"), (48, "1.48.a"), (49, "1.49.a"), (50, "1.50.a"),
   (51, "1.51.a"), (52, "1.52.a"), (53, "1.53.a"), (54, "1.54.a"), (55, "1.55.a"), (56,
   "1.56.a"), (57, "1.57.a"), (58, "1.58.a"), (59, "1.59.a"), (60, "1.60.a"), (61, "1.61.a"),
   (62, "1.62.a"), (63, "1.63.a"), (64, "1.64.a"), (65, "1.65.a"), (66, "1.66.a"), (67,
   "1.67.a"), (68, "1.68.a"), (69, "1.69.a"), (70, "1.70.a"), (71, "1.71.a"), (72, "1.72.a"),
   (73, "1.73.a"), (74, "1.74.a"), (75, "1.75.a"), (76, "1.76.a"), (77, "1.77.a"), (78,
   "1.78.a"), (79, "1.79.a"), (80, "1.80.a"), (81, "1.81.a"), (82, "1.82.a"), (83, "1.83.a"),
   (84, "1.84.a"), (85, "1.85.a"), (86, "1.86.a"), (87, "1.87.a"), (88, "1.88.a"), (89,
   "1.89.a"), (90, "1.90.a"), (91, "1.91.a"), (92, "1.92.a"), (93, "1.93.a"), (94, "1.94.a"),
   (95, "1.95.a"), (96, "1.96.a"), (97, "1.97.a"), (98, "1.98.a"), (99, "1.99.a"), (100,
   "1.100.a"), (101, "1.101.a"), (102, "1.102.a"), (103, "1.103.a"), (104, "1.104.a"), (105,
   "1.105.a"), (106, "1.106.a"), (107, "1.107.a"), (108, "1.108.a"), (109, "1.109.a"), (110,
   "1.110.a"), (111, "1.111.a"), (112, "1.112.a"), (113, "1.113.a"), (114, "1.114.a"), (115,
   "1.115.a"), (116, "1.116.a"), (117, "1.117.a"), (118, "1.118.a"), (119, "1.119.a"), (120,
   "1.120.a"), (121, "1.121.a"), (122, "1.122.a"), (123, "1.123.a"), (124, "1.124.a"), (125,
   "1.125.a"), (126, "1.126.a"), (127, "1.127.a"), (128, "1.128.a"), (129, "1.129.a"), (130,
   "1.130.a"), (131, "1.131.a"), (132, "1.132.a"), (133, "1.133.a"), (134, "1.134.a"), (135,
   "1.135.a"), (136, "1.136.a"), (137, "1.137.a"), (138, "1.138.a"), (139, "1.139.a"), (140,
   "1.140.a"), (141, "1.141.a"), (142, "1.142.a"), (143, "1.143.a"), (144, "1.144.a"), (145,
   "1.145.a"), (146, "1.146.a"), (147, "1.147.a"), (148, "1.148.a"), (149, "1.149.a"), (150,
   "1.150.a"), (151, "1.151.a"), (152, "1.152.a"), (153, "1.153.a"), (154, "1.154.a"), (155,
   "1.155.a"), (156, "1.156.a"), (157, "1.157.a"), (158, "1.158.a"), (159, "1.159.a"), (160,
   "1.160.a"), (161, "1.161.a"), (162, "1.162.a"), (163, "1.163.a"), (164, "1.164.a"), (165,
   "1.165.a"), (166, "1.166.a"), (167, "1.167.a"), (168, "1.168.a"), (169, "1.169.a"), (170,
   "1.170.a"), (171, "1.171.a"), (172, "1.172.a"), (173, "1.173.a"), (174, "1.174.a"), (175,
   "1.175.a"), (176, "1.176.a"), (177, "1.177.a"), (178, "1.178.a"), (179, "1.179.a"), (180,
   "1.180.a"), (181, "1.181.a"), (182, "1.182.a"), (183, "1.183.a"), (184, "1.184.a"), (185,
   "1.185.a"), (186, "1.186.a"), (187, "1.187.a"), (188, "1.188.a"), (189, "1.189.a"), (190,
   "1.190.a"), (191, "1.191.a"), (192, "1.192.a"), (193, "1.193.a"), (194, "1.194.a"), (195,
   "1.195.a"), (196, "1.196.a"), (197, "1.197.a"), (198, "1.198.a"), (199, "1.199.a"), (200,
   "1.200.a"), (201, "1.201.a"), (202, "1.202.a"), (203, "1.203.a"), (204, "1.204.a"), (205,
   "1.205.a"), (206, "1.206.a"), (207, "1.207.a"), (208, "1.208.a"), (209, "1.209.a"), (210,
   "1.210.a"), (211, "1.211.a"), (212, "1.212.a"), (213, "1.213.a"), (214, "1.214.a"), (215,
   "1.215.a"), (216, "1.216.a"), (217, "1.217.a"), (218, "1.218.a"), (219, "1.219.a"), (220,
   "1.220.a"), (221, "1.221.a"), (222, "1.222.a"), (223, "1.223.a"), (224, "1.224.a"), (225,
   "1.225.a"), (226, "1.226.a"), (227, "1.227.a"), (228, "1.228.a"), (229, "1.229.a"), (230,
   "1.230.a"), (231, "1.231.a"), (232, "1.232.a"), (233, "1.233.a"), (234, "1.234.a"), (235,
   "1.235.a"), (236, "1.236.a"), (237, "1.237.a"), (238, "1.238.a"), (239, "1.239.a"), (240,
   "1.240.a"), (241, "1.241.a"), (242, "1.242.a"), (243, "1.243.a"), (244, "1.244.a"), (245,
   "1.245.a"), (246, "1.246.a"), (247, "1.247.a"), (248, "1.248.a"), (249, "1.249.a"), (250,
   "1.250.a"), (251, "1.251.a"), (252, "1.252.a"), (253, "1.253.a"), (254, "1.254.a"), (255,
   "1.255.a")]

/-- A format-C chunk-0 file whose `Stat` size (1600 bytes, two lower-half
points) exceeds its actual content: 64 hash bytes plus the single on-curve
point `(1, 0)`, so the G1 loop hits EOF after one point. -/
def truncContent : Bytes :=
  List.replicate 64 0 ++ (1 :: List.replicate 95 0) ++ List.replicate 96 0

/-- Recursive completeness check of a chunk selection table: every chunk
index in `[start, start + fuel)` resolves to a file name. -/
def tableCompleteFrom (table : List (Nat × String)) : Nat → Nat → Bool
  | 0, _ => true
  | Nat.succ fuel, i => (Celo.tableGet table i).isSome && tableCompleteFrom table fuel (i + 1)

/-- Whether every chunk index in `[0, TotalChunks)` resolves. -/
def tableComplete (table : List (Nat × String)) : Bool :=
  tableCompleteFrom table Celo.TotalChunks 0

/-!
## Theorems

Helper lemmas come first, then one theorem per claim (with its
counterexample and witness where applicable).
-/

set_option maxHeartbeats 1600000 in
/-- The chunk scan of `c1Names` fills all 256 chunk slots. -/
theorem c1Names_table : Celo.selectChunkFiles c1Names = .ok c1Table := by
  decide

set_option maxHeartbeats 1600000 in
/-- On `fsC1` every chunk fails (chunk 0 with a malformed first element,
all other chunks with a truncated read), every failure is logged, and the
loop finishes with the SRS untouched. -/
theorem c1_loop :
    Celo.translateLoop ⟨3, 4⟩ c1Table fsC1 Celo.TotalChunks 0
      (Celo.initBw6SRS ⟨1, 2⟩ ⟨3, 4⟩) [] =
      .ok (Celo.initBw6SRS ⟨1, 2⟩ ⟨3, 4⟩, List.range 256) := by
  decide

/-- The full format-C run on `c1Names`/`fsC1` returns an SRS with an empty
G1 list and all 256 chunk numbers in the logged-failure list. -/
theorem c1_translate :
    Celo.TranslateBw6761SRS ⟨1, 2⟩ ⟨3, 4⟩ c1Names fsC1 =
      .ok (⟨[], ⟨1, 2⟩, ⟨3, 4⟩, ⟨0, 0⟩, some ⟨3, 4⟩, none⟩, 0, List.range 256) := by
  simp only [Celo.TranslateBw6761SRS, c1Names_table]
  rw [c1_loop]
  decide

/-- Dropping a prefix of known length plus a remainder. -/
theorem drop_append_len {a b : Bytes} {n k : Nat} (h : a.length = n) :
    (a ++ b).drop (n + k) = b.drop k := by
  rw [← h]
  exact List.drop_append k

/-- Dropping exactly a prefix of known length. -/
theorem drop_append_exact {a b : Bytes} {n : Nat} (h : a.length = n) :
    (a ++ b).drop n = b := by
  rw [← h]
  exact List.drop_left a b

/-- Taking exactly a prefix of known length. -/
theorem take_append_exact {a b : Bytes} {n : Nat} (h : a.length = n) :
    (a ++ b).take n = a := by
  rw [← h]
  exact List.take_left a b

/-- A list sum of truncations of non-negative integers casts to the
integer sum. -/
theorem sum_toNat_cast {α : Type} (l : List α) (g : α → Int)
    (h : ∀ x ∈ l, 0 ≤ g x) :
    (((l.map (fun x => (g x).toNat)).sum : Nat) : Int) = (l.map g).sum := by
  induction l with
  | nil => simp
  | cons a l ih =>
    simp only [List.map_cons, List.sum_cons, Nat.cast_add]
    rw [Int.toNat_of_nonneg (h a (by simp)), ih (fun x hx => h x (by simp [hx]))]

/-- `natToLeBytes` produces exactly `k` bytes. -/
theorem natToLeBytes_length (k v : Nat) : (natToLeBytes k v).length = k := by
  induction k generalizing v with
  | zero => rfl
  | succ k ih => simp [natToLeBytes, ih]

/-- Decoding a `natToLeBytes` encoding recovers the value when it fits. -/
theorem leBytesToNat_natToLeBytes (k v : Nat) (h : v < 256 ^ k) :
    leBytesToNat (natToLeBytes k v) = v := by
  induction k generalizing v with
  | zero => simp at h; simp [natToLeBytes, leBytesToNat, h]
  | succ k ih =>
    have hdiv : v / 256 < 256 ^ k := by
      rw [Nat.div_lt_iff_lt_mul (by norm_num)]
      calc v < 256 ^ (k + 1) := h
        _ = 256 ^ k * 256 := by ring
    simp [natToLeBytes, leBytesToNat, ih (v / 256) hdiv]
    omega

/-- The success cases of the G1 reading loop of format A: the SRS gains
exactly the points of the pure decoder `decodeG1List`. -/
theorem readG1PointsAux_ok {n : Nat} :
    ∀ {s : Bytes} {srs srs2 : SRS PointE2} {s2 : Bytes},
    Main.ReadG1PointsAux n s srs = .ok (srs2, s2) →
    ∃ pts, Main.decodeG1List n s = some (pts, s2) ∧
      srs2 = { srs with PkG1 := srs.PkG1 ++ pts } ∧ pts.length = n := by
  induction n with
  | zero =>
    intro s srs srs2 s2 h
    simp only [Main.ReadG1PointsAux, Except.ok.injEq, Prod.mk.injEq] at h
    exact ⟨[], by simp [Main.decodeG1List, h.2], by simp [← h.1], rfl⟩
  | succ k ih =>
    intro s srs srs2 s2 h
    simp only [Main.ReadG1PointsAux] at h
    cases hx : Main.extract32ByteFieldElement s with
    | error e => simp [hx] at h
    | ok p1 =>
      obtain ⟨x, s1⟩ := p1
      simp only [hx] at h
      cases hy : Main.extract32ByteFieldElement s1 with
      | error e => simp [hy] at h
      | ok p2 =>
        obtain ⟨y, sr⟩ := p2
        simp only [hy] at h
        obtain ⟨pts, hdec, hsrs, hlen⟩ := ih h
        refine ⟨PointAff.mk x y :: pts, ?_, ?_, by simp [hlen]⟩
        · simp [Main.decodeG1List, hx, hy, hdec]
        · simp [hsrs, List.append_assoc]

/-- `ReadG2Points` only writes `Vk.G2[1]`. -/
theorem ReadG2Points_fields {s : Bytes} {srs srs2 : SRS PointE2} {s2 : Bytes}
    (h : Main.ReadG2Points s srs = .ok (srs2, s2)) :
    srs2.PkG1 = srs.PkG1 ∧ srs2.VkG1 = srs.VkG1 ∧ srs2.VkG2_0 = srs.VkG2_0 := by
  simp only [Main.ReadG2Points] at h
  split at h
  · simp at h
  · split at h
    case _ e _ => simp at h
    case _ =>
      split at h
      case _ e _ => simp at h
      case _ =>
        split at h
        case _ e _ => simp at h
        case _ =>
          split at h
          case _ e _ => simp at h
          case _ =>
            simp only [Except.ok.injEq, Prod.mk.injEq] at h
            rw [← h.1]
            exact ⟨rfl, rfl, rfl⟩

/-- The success cases of `ReadTranscriptFile`: the SRS gains exactly
`filePoints content` in `Pk.G1`, the other tracked fields are preserved,
and the contributed point count is the (truncated) `G1PointsN` field. -/
theorem ReadTranscriptFile_ok {content : Bytes} {srs srs2 : SRS PointE2}
    (h : Main.ReadTranscriptFile content srs = .ok srs2) :
    srs2.PkG1 = srs.PkG1 ++ Main.filePoints content ∧
    srs2.VkG1 = srs.VkG1 ∧ srs2.VkG2_0 = srs.VkG2_0 ∧
    (Main.filePoints content).length = (Main.fileG1PointsN content).toNat := by
  simp only [Main.ReadTranscriptFile] at h
  cases hm : Main.ReadMetadata content with
  | error e => simp [hm] at h
  | ok mp =>
    obtain ⟨m, s⟩ := mp
    simp only [hm] at h
    cases hg : Main.ReadG1Points m.G1PointsN s srs with
    | error e => simp [hg] at h
    | ok sp =>
      obtain ⟨srs1, s1⟩ := sp
      simp only [hg] at h
      obtain ⟨pts, hdec, hsrs1, hlen⟩ := readG1PointsAux_ok hg
      have hfp : Main.filePoints content = pts := by
        simp [Main.filePoints, hm, hdec]
      have hfn : (Main.fileG1PointsN content).toNat = m.G1PointsN.toNat := by
        simp [Main.fileG1PointsN, hm]
      split at h
      · cases hg2 : Main.ReadG2Points s1 srs1 with
        | error e => simp [hg2] at h
        | ok sp2 =>
          obtain ⟨srs2', s4⟩ := sp2
          simp only [hg2] at h
          simp only [Except.ok.injEq] at h
          obtain ⟨hp, hv, hv0⟩ := ReadG2Points_fields hg2
          rw [← h]
          refine ⟨?_, ?_, ?_, ?_⟩
          · rw [hp, hsrs1, hfp]
          · rw [hv, hsrs1]
          · rw [hv0, hsrs1]
          · rw [hfp, hfn, hlen]
      · simp only [Except.ok.injEq] at h
        rw [← h, hsrs1]
        exact ⟨by rw [hfp], rfl, rfl, by rw [hfp, hfn, hlen]⟩

/-- The success cases of the format-A file loop: matched files contribute
their points in file order, the processed count grows by the number of
matched files, and `Vk` fields are preserved. -/
theorem ConstructSRSLoop_ok {files : List (String × Bytes)} :
    ∀ {srs srs2 : SRS PointE2} {n n2 : Nat},
    Main.ConstructSRSLoop files srs n = .ok (srs2, n2) →
    srs2.PkG1 = srs.PkG1 ++
      ((Main.matchedFiles files).map (fun f => Main.filePoints f.2)).flatten ∧
    srs2.VkG1 = srs.VkG1 ∧ srs2.VkG2_0 = srs.VkG2_0 ∧
    n2 = n + (Main.matchedFiles files).length ∧
    ∀ f ∈ Main.matchedFiles files,
      (Main.filePoints f.2).length = (Main.fileG1PointsN f.2).toNat := by
  induction files with
  | nil =>
    intro srs srs2 n n2 h
    simp only [Main.ConstructSRSLoop, Except.ok.injEq, Prod.mk.injEq] at h
    simp [Main.matchedFiles, ← h.1, h.2]
  | cons f rest ih =>
    intro srs srs2 n n2 h
    obtain ⟨name, content⟩ := f
    simp only [Main.ConstructSRSLoop] at h
    by_cases hm : Main.transcriptNameMatch name
    · rw [if_pos hm] at h
      cases hr : Main.ReadTranscriptFile content srs with
      | error e => simp [hr] at h
      | ok srs1 =>
        simp only [hr] at h
        obtain ⟨hp, hv, hv0, hn, hall⟩ := ih h
        obtain ⟨hp1, hv1, hv01, hlen1⟩ := ReadTranscriptFile_ok hr
        have hmf : Main.matchedFiles ((name, content) :: rest) =
            (name, content) :: Main.matchedFiles rest := by
          simp [Main.matchedFiles, List.filter_cons, hm]
        refine ⟨?_, ?_, ?_, ?_, ?_⟩
        · rw [hmf, hp, hp1]; simp [List.append_assoc]
        · rw [hv, hv1]
        · rw [hv0, hv01]
        · rw [hmf, hn]; simp; omega
        · rw [hmf]
          intro g hg
          rw [List.mem_cons] at hg
          rcases hg with hg | hg
          · rw [hg]; exact hlen1
          · exact hall g hg
    · rw [if_neg hm] at h
      have hmf : Main.matchedFiles ((name, content) :: rest) =
          Main.matchedFiles rest := by
        simp [Main.matchedFiles, List.filter_cons, hm]
      rw [hmf]
      exact ih h

/-- The success cases of `ConstructSRS`: the G1 sequence is the generator
followed by the matched files' points in file order, `Vk.G1` and `Vk.G2[0]`
hold the generators, and the warning flag reports exactly a processed-file
count different from 20. -/
theorem ConstructSRS_ok {g1 : PointAff} {g2 : PointE2}
    {files : List (String × Bytes)} {srs : SRS PointE2} {w : Bool}
    (h : Main.ConstructSRS g1 g2 files = .ok (srs, w)) :
    srs.PkG1 = g1 ::
      ((Main.matchedFiles files).map (fun f => Main.filePoints f.2)).flatten ∧
    srs.VkG1 = g1 ∧ srs.VkG2_0 = g2 ∧
    w = decide ((Main.matchedFiles files).length ≠ 20) ∧
    ∀ f ∈ Main.matchedFiles files,
      (Main.filePoints f.2).length = (Main.fileG1PointsN f.2).toNat := by
  simp only [Main.ConstructSRS] at h
  cases hl : Main.ConstructSRSLoop files (Main.initBnSRS g1 g2) 0 with
  | error e => simp [hl] at h
  | ok p =>
    obtain ⟨srs1, n1⟩ := p
    simp only [hl] at h
    simp only [Except.ok.injEq, Prod.mk.injEq] at h
    obtain ⟨hp, hv, hv0, hn, hall⟩ := ConstructSRSLoop_ok hl
    rw [← h.1, ← h.2]
    refine ⟨?_, ?_, ?_, by rw [hn]; simp, hall⟩
    · simpa [Main.initBnSRS] using hp
    · simpa [Main.initBnSRS] using hv
    · simpa [Main.initBnSRS] using hv0

/-- When every chunk in the remaining range resolves to a file, the format-C
chunk loop always returns `ok`, whatever the chunk processing does. -/
theorem translateLoop_complete (gen2 : PointAff) (table : List (Nat × String))
    (fs : Celo.FileSys) :
    ∀ (fuel start : Nat) (srs : SRS PointAff) (failed : List Nat),
    tableCompleteFrom table fuel start = true →
    exceptIsOk (Celo.translateLoop gen2 table fs fuel start srs failed) = true := by
  intro fuel
  induction fuel with
  | zero => intro start srs failed _; rfl
  | succ k ih =>
    intro start srs failed hc
    simp only [tableCompleteFrom, Bool.and_eq_true, Option.isSome_iff_exists] at hc
    obtain ⟨⟨name, hname⟩, hrest⟩ := hc
    cases hf : fs name with
    | none =>
      simp only [Celo.translateLoop, hname, hf]
      exact ih (start + 1) srs (failed ++ [start]) hrest
    | some sc =>
      obtain ⟨fileSize, content⟩ := sc
      cases hp : Celo.processChunk gen2 start fileSize content srs with
      | mk srs1 w1 e1 =>
        cases e1 with
        | none =>
          simp only [Celo.translateLoop, hname, hf, hp]
          exact ih (start + 1) srs1 failed hrest
        | some e =>
          simp only [Celo.translateLoop, hname, hf, hp]
          exact ih (start + 1) srs1 (failed ++ [start]) hrest

/-- When some chunk in the remaining range does not resolve, the format-C
chunk loop fails with the missing-chunk error. -/
theorem translateLoop_missing (gen2 : PointAff) (table : List (Nat × String))
    (fs : Celo.FileSys) :
    ∀ (fuel start : Nat) (srs : SRS PointAff) (failed : List Nat) (i : Nat),
    start ≤ i → i < start + fuel → Celo.tableGet table i = none →
    Celo.isMissingChunkErr (Celo.translateLoop gen2 table fs fuel start srs failed) = true := by
  intro fuel
  induction fuel with
  | zero => intro start srs failed i h1 h2 _; omega
  | succ k ih =>
    intro start srs failed i h1 h2 hmiss
    cases hname : Celo.tableGet table start with
    | none =>
      simp only [Celo.translateLoop, hname, Celo.isMissingChunkErr]
      have hpre : ("missing chunk file for chunk ".toList) <+:
          ("missing chunk file for chunk " ++ toString start).toList := by
        simp only [String.toList, String.data_append]
        exact List.prefix_append _ _
      exact List.isPrefixOf_iff_prefix.mpr hpre
    | some name =>
      have hne : i ≠ start := fun he => by rw [he, hname] at hmiss; cases hmiss
      have h1' : start + 1 ≤ i := by omega
      have h2' : i < start + 1 + k := by omega
      cases hf : fs name with
      | none =>
        simp only [Celo.translateLoop, hname, hf]
        exact ih (start + 1) srs (failed ++ [start]) i h1' h2' hmiss
      | some sc =>
        obtain ⟨fileSize, content⟩ := sc
        cases hp : Celo.processChunk gen2 start fileSize content srs with
        | mk srs1 w1 e1 =>
          cases e1 with
          | none =>
            simp only [Celo.translateLoop, hname, hf, hp]
            exact ih (start + 1) srs1 failed i h1' h2' hmiss
          | some e =>
            simp only [Celo.translateLoop, hname, hf, hp]
            exact ih (start + 1) srs1 (failed ++ [start]) i h1' h2' hmiss

/-!
### C1

The claim: every per-point or per-file error in a chunk aborts the entire
format-C run, `TranslateBw6761SRS` returns an error, and no partial SRS is
produced.  The code instead logs the failure of `processChunk` and
continues with the next chunk, so a run every single chunk of which fails
still returns `ok`.
-/

/-- C1 (counterexample): on the 256-chunk input `c1Names`/`fsC1`, chunk 0
fails with a malformed first element and every other chunk with a
truncated read, yet `TranslateBw6761SRS` returns `ok` with an SRS whose G1
list is empty and with all 256 chunks in the logged-failure list. -/
theorem C1_counterexample :
    Celo.TranslateBw6761SRS ⟨1, 2⟩ ⟨3, 4⟩ c1Names fsC1 =
      .ok (⟨[], ⟨1, 2⟩, ⟨3, 4⟩, ⟨0, 0⟩, some ⟨3, 4⟩, none⟩, 0, List.range 256) ∧
    (Celo.processChunk ⟨3, 4⟩ 0 832 badChunkContent (Celo.initBw6SRS ⟨1, 2⟩ ⟨3, 4⟩)).err =
      some "failed to extract x coordinate: failed to convert bytes to field element: invalid encoding" ∧
    (Celo.processChunk ⟨3, 4⟩ 1 832 [] (Celo.initBw6SRS ⟨1, 2⟩ ⟨3, 4⟩)).err =
      some "unexpected EOF at beginning of file" :=
  ⟨c1_translate, by decide, by decide⟩

/-- C1 (amended): a per-point or per-file error aborts only the failing
chunk: `processChunk` returns the error, `TranslateBw6761SRS` merely logs
it and continues; whenever the filename scan succeeds (no `Atoi` range
failure) and every chunk index in `[0, 256)` resolves to a file, the run
returns `ok` - regardless of how many chunks failed, so a partial SRS is
possible. -/
theorem C1_amended (gen1 gen2 : PointAff) (names : List String) (fs : Celo.FileSys)
    (table : List (Nat × String))
    (hscan : Celo.selectChunkFiles names = .ok table)
    (h : tableComplete table = true) :
    exceptIsOk (Celo.TranslateBw6761SRS gen1 gen2 names fs) = true := by
  have hl := translateLoop_complete gen2 table fs
    Celo.TotalChunks 0 (Celo.initBw6SRS gen1 gen2) [] h
  simp only [Celo.TranslateBw6761SRS, hscan]
  cases hres : Celo.translateLoop gen2 table fs Celo.TotalChunks 0
      (Celo.initBw6SRS gen1 gen2) [] with
  | error e => rw [hres] at hl; exact absurd hl (by simp [exceptIsOk])
  | ok p => obtain ⟨srs, failed⟩ := p; rfl

/-- C1 (witness): the amended theorem applied to the concrete
256-chunk input `c1Names`/`fsC1`. -/
theorem C1_witness :
    Celo.selectChunkFiles c1Names = .ok c1Table ∧
    tableComplete c1Table = true ∧
    exceptIsOk (Celo.TranslateBw6761SRS ⟨1, 2⟩ ⟨3, 4⟩ c1Names fsC1) = true :=
  ⟨c1Names_table, by decide,
   C1_amended ⟨1, 2⟩ ⟨3, 4⟩ c1Names fsC1 c1Table c1Names_table (by decide)⟩

/-!
### C2

The claim: every format seeds the SRS with the canonical G1 and G2
generators before reading files, so `Pk.G1[0]` of the returned SRS is the
G1 generator and `Vk.G2[0]` the G2 generator.  Formats A and B do; format C
creates `Pk.G1` empty and only seeds `Vk.G1` and `Vk.G2[0]`.
-/

/-- C2 (counterexample): the initial format-C SRS has an empty `Pk.G1`
(nothing is seeded at index 0), and a completed format-C run can return an
SRS whose `Pk.G1` is still empty, so there is no index 0 holding the G1
generator `⟨1, 2⟩`. -/
theorem C2_counterexample :
    (Celo.initBw6SRS ⟨1, 2⟩ ⟨3, 4⟩).PkG1 = [] ∧
    (Celo.TranslateBw6761SRS ⟨1, 2⟩ ⟨3, 4⟩ c1Names fsC1).map (fun r => r.1.PkG1.head?) =
      .ok none ∧
    (none : Option PointAff) ≠ some ⟨1, 2⟩ := by
  refine ⟨rfl, ?_, by decide⟩
  rw [c1_translate]
  rfl

/-- The `aleo` G1 loop only appends to `Pk.G1`, preserving `Vk.G1` and
`Vk.G2[0]`. -/
theorem aleoReadG1PointsAux_fields {n : Nat} :
    ∀ {s : Bytes} {srs srs2 : SRS PointE2} {s2 : Bytes},
    Aleo.readG1PointsAux n s srs = .ok (srs2, s2) →
    (∃ pts, srs2.PkG1 = srs.PkG1 ++ pts) ∧
    srs2.VkG1 = srs.VkG1 ∧ srs2.VkG2_0 = srs.VkG2_0 := by
  induction n with
  | zero =>
    intro s srs srs2 s2 h
    simp only [Aleo.readG1PointsAux, Except.ok.injEq, Prod.mk.injEq] at h
    exact ⟨⟨[], by simp [← h.1]⟩, by rw [← h.1], by rw [← h.1]⟩
  | succ k ih =>
    intro s srs srs2 s2 h
    simp only [Aleo.readG1PointsAux] at h
    cases hx : Aleo.extract48ByteFieldElement s with
    | error e => simp [hx] at h
    | ok p1 =>
      obtain ⟨x, s1⟩ := p1
      simp only [hx] at h
      cases hy : Aleo.extract48ByteFieldElement s1 with
      | error e => simp [hy] at h
      | ok p2 =>
        obtain ⟨y, sr⟩ := p2
        simp only [hy] at h
        obtain ⟨⟨pts, hpk⟩, hv, hv0⟩ := ih h
        exact ⟨⟨PointAff.mk x y :: pts, by simp [hpk, List.append_assoc]⟩, hv, hv0⟩

/-- `readG2SetupFile` only writes `Vk.G2[1]`. -/
theorem aleoReadG2_fields {content : Bytes} {srs srs2 : SRS PointE2}
    (h : Aleo.readG2SetupFile content srs = .ok srs2) :
    srs2.PkG1 = srs.PkG1 ∧ srs2.VkG1 = srs.VkG1 ∧ srs2.VkG2_0 = srs.VkG2_0 := by
  simp only [Aleo.readG2SetupFile] at h
  cases h1 : Aleo.extract48ByteFieldElement content with
  | error e => simp [h1] at h
  | ok p1 =>
    obtain ⟨x1, s1⟩ := p1
    simp only [h1] at h
    cases h2 : Aleo.extract48ByteFieldElement s1 with
    | error e => simp [h2] at h
    | ok p2 =>
      obtain ⟨x2, s2a⟩ := p2
      simp only [h2] at h
      cases h3 : Aleo.extract48ByteFieldElement s2a with
      | error e => simp [h3] at h
      | ok p3 =>
        obtain ⟨y1, s3⟩ := p3
        simp only [h3] at h
        cases h4 : Aleo.extract48ByteFieldElement s3 with
        | error e => simp [h4] at h
        | ok p4 =>
          obtain ⟨y2, s4⟩ := p4
          simp only [h4, Except.ok.injEq] at h
          rw [← h]
          exact ⟨rfl, rfl, rfl⟩

/-- A format-B file dispatch only appends to `Pk.G1` (a g2-marked file
appends nothing), preserving `Vk.G1` and `Vk.G2[0]`. -/
theorem processAleoFile_fields {name : String} {content : Bytes}
    {srs srs2 : SRS PointE2}
    (h : Aleo.processAleoFile name content srs = .ok srs2) :
    (∃ pts, srs2.PkG1 = srs.PkG1 ++ pts) ∧
    srs2.VkG1 = srs.VkG1 ∧ srs2.VkG2_0 = srs.VkG2_0 := by
  simp only [Aleo.processAleoFile] at h
  split at h
  · obtain ⟨hp, hv, hv0⟩ := aleoReadG2_fields h
    exact ⟨⟨[], by simp [hp]⟩, hv, hv0⟩
  · simp only [Aleo.readG1SetupFile] at h
    split at h
    · simp at h
    · cases hg : Aleo.readG1PointsAux (leBytesToNat (content.take 8))
          (content.drop 8) srs with
      | error e => simp [hg] at h
      | ok sp =>
        obtain ⟨srs1, s1⟩ := sp
        simp only [hg, Except.ok.injEq] at h
        rw [← h]
        exact aleoReadG1PointsAux_fields hg

/-- The format-B file loop only appends to `Pk.G1`, preserving `Vk.G1` and
`Vk.G2[0]`. -/
theorem translateBlsLoop_fields {files : List (String × Bytes)} :
    ∀ {srs srs2 : SRS PointE2} {n n2 : Nat},
    Aleo.translateBlsLoop files srs n = .ok (srs2, n2) →
    (∃ pts, srs2.PkG1 = srs.PkG1 ++ pts) ∧
    srs2.VkG1 = srs.VkG1 ∧ srs2.VkG2_0 = srs.VkG2_0 := by
  induction files with
  | nil =>
    intro srs srs2 n n2 h
    simp only [Aleo.translateBlsLoop, Except.ok.injEq, Prod.mk.injEq] at h
    exact ⟨⟨[], by simp [← h.1]⟩, by rw [← h.1], by rw [← h.1]⟩
  | cons f rest ih =>
    intro srs srs2 n n2 h
    obtain ⟨name, content⟩ := f
    simp only [Aleo.translateBlsLoop] at h
    cases hp : Aleo.processAleoFile name content srs with
    | error e => simp [hp] at h
    | ok srs1 =>
      simp only [hp] at h
      obtain ⟨⟨pts1, hp1⟩, hv1, hv01⟩ := processAleoFile_fields hp
      obtain ⟨⟨pts2, hp2⟩, hv2, hv02⟩ := ih h
      exact ⟨⟨pts1 ++ pts2, by rw [hp2, hp1, List.append_assoc]⟩,
        by rw [hv2, hv1], by rw [hv02, hv01]⟩

/-- A successful format-B run returns an SRS whose `Pk.G1[0]` is the G1
generator and whose `Vk.G2[0]` is the G2 generator. -/
theorem TranslateBls12377SRS_ok {g1 : PointAff} {g2 : PointE2}
    {files : List (String × Bytes)} {srs : SRS PointE2} {n : Nat}
    (h : Aleo.TranslateBls12377SRS g1 g2 files = .ok (srs, n)) :
    srs.PkG1.head? = some g1 ∧ srs.VkG2_0 = g2 := by
  simp only [Aleo.TranslateBls12377SRS] at h
  cases hl : Aleo.translateBlsLoop (Aleo.sortFilesByLowerName files)
      (Aleo.initBlsSRS g1 g2) 0 with
  | error e => simp [hl] at h
  | ok p =>
    obtain ⟨srs1, n1⟩ := p
    simp only [hl, Except.ok.injEq, Prod.mk.injEq] at h
    obtain ⟨⟨pts, hp⟩, _, hv0⟩ := translateBlsLoop_fields hl
    rw [← h.1]
    constructor
    · show srs1.PkG1.head? = some g1
      rw [hp]
      simp [Aleo.initBlsSRS]
    · show srs1.VkG2_0 = g2
      rw [hv0]
      rfl

/-- C2 (amended): formats A and B seed `Pk.G1[0]` with the G1 generator and
`Vk.G2[0]` with the G2 generator before reading any file, so a successful
format-A or format-B run returns an SRS with `Pk.G1[0]` the G1 generator
and `Vk.G2[0]` the G2 generator; format C seeds only `Vk.G1` and
`Vk.G2[0]` and starts with an empty `Pk.G1`. -/
theorem C2_amended (g1 : PointAff) (g2 : PointE2) (b1 : PointAff) (b2 : PointE2)
    (d1 d2 : PointAff) (files bfiles : List (String × Bytes))
    (srs bsrs : SRS PointE2) (w : Bool) (bn : Nat)
    (h : Main.ConstructSRS g1 g2 files = .ok (srs, w))
    (hb : Aleo.TranslateBls12377SRS b1 b2 bfiles = .ok (bsrs, bn)) :
    srs.PkG1.head? = some g1 ∧ srs.VkG2_0 = g2 ∧
    bsrs.PkG1.head? = some b1 ∧ bsrs.VkG2_0 = b2 ∧
    (Main.initBnSRS g1 g2).PkG1 = [g1] ∧ (Main.initBnSRS g1 g2).VkG2_0 = g2 ∧
    (Aleo.initBlsSRS b1 b2).PkG1 = [b1] ∧ (Aleo.initBlsSRS b1 b2).VkG2_0 = b2 ∧
    (Celo.initBw6SRS d1 d2).PkG1 = [] ∧ (Celo.initBw6SRS d1 d2).VkG1 = d1 ∧
    (Celo.initBw6SRS d1 d2).VkG2_0 = d2 := by
  obtain ⟨hpk, _, hvk0, _, _⟩ := ConstructSRS_ok h
  obtain ⟨hbh, hbv⟩ := TranslateBls12377SRS_ok hb
  exact ⟨by rw [hpk]; rfl, hvk0, hbh, hbv, rfl, rfl, rfl, rfl, rfl, rfl, rfl⟩

/-- C2 (witness): the amended theorem applied to empty format-A and
format-B directory listings with concrete generators. -/
theorem C2_witness :
    Main.ConstructSRS ⟨1, 2⟩ ⟨5, 6, 7, 8⟩ [] =
      .ok (⟨[⟨1, 2⟩], ⟨1, 2⟩, ⟨5, 6, 7, 8⟩, ⟨0, 0, 0, 0⟩,
            some ⟨5, 6, 7, 8⟩, some ⟨0, 0, 0, 0⟩⟩, true) ∧
    Aleo.TranslateBls12377SRS ⟨9, 10⟩ ⟨11, 12, 13, 14⟩ [] =
      .ok (⟨[⟨9, 10⟩], ⟨9, 10⟩, ⟨11, 12, 13, 14⟩, ⟨0, 0, 0, 0⟩,
            some ⟨11, 12, 13, 14⟩, some ⟨0, 0, 0, 0⟩⟩, 1) ∧
    (⟨[⟨1, 2⟩], ⟨1, 2⟩, ⟨5, 6, 7, 8⟩, ⟨0, 0, 0, 0⟩, some ⟨5, 6, 7, 8⟩,
      some ⟨0, 0, 0, 0⟩⟩ : SRS PointE2).PkG1.head? = some ⟨1, 2⟩ ∧
    (⟨[⟨9, 10⟩], ⟨9, 10⟩, ⟨11, 12, 13, 14⟩, ⟨0, 0, 0, 0⟩, some ⟨11, 12, 13, 14⟩,
      some ⟨0, 0, 0, 0⟩⟩ : SRS PointE2).PkG1.head? = some ⟨9, 10⟩ ∧
    (⟨[⟨9, 10⟩], ⟨9, 10⟩, ⟨11, 12, 13, 14⟩, ⟨0, 0, 0, 0⟩, some ⟨11, 12, 13, 14⟩,
      some ⟨0, 0, 0, 0⟩⟩ : SRS PointE2).VkG2_0 = ⟨11, 12, 13, 14⟩ :=
  ⟨by decide, by decide,
   (C2_amended ⟨1, 2⟩ ⟨5, 6, 7, 8⟩ ⟨9, 10⟩ ⟨11, 12, 13, 14⟩ ⟨1, 1⟩ ⟨1, 1⟩ [] []
     (⟨[⟨1, 2⟩], ⟨1, 2⟩, ⟨5, 6, 7, 8⟩, ⟨0, 0, 0, 0⟩, some ⟨5, 6, 7, 8⟩,
       some ⟨0, 0, 0, 0⟩⟩ : SRS PointE2)
     (⟨[⟨9, 10⟩], ⟨9, 10⟩, ⟨11, 12, 13, 14⟩, ⟨0, 0, 0, 0⟩, some ⟨11, 12, 13, 14⟩,
       some ⟨0, 0, 0, 0⟩⟩ : SRS PointE2) true 1 (by decide) (by decide)).1,
   (C2_amended ⟨1, 2⟩ ⟨5, 6, 7, 8⟩ ⟨9, 10⟩ ⟨11, 12, 13, 14⟩ ⟨1, 1⟩ ⟨1, 1⟩ [] []
     (⟨[⟨1, 2⟩], ⟨1, 2⟩, ⟨5, 6, 7, 8⟩, ⟨0, 0, 0, 0⟩, some ⟨5, 6, 7, 8⟩,
       some ⟨0, 0, 0, 0⟩⟩ : SRS PointE2)
     (⟨[⟨9, 10⟩], ⟨9, 10⟩, ⟨11, 12, 13, 14⟩, ⟨0, 0, 0, 0⟩, some ⟨11, 12, 13, 14⟩,
       some ⟨0, 0, 0, 0⟩⟩ : SRS PointE2) true 1 (by decide) (by decide)).2.2.1,
   (C2_amended ⟨1, 2⟩ ⟨5, 6, 7, 8⟩ ⟨9, 10⟩ ⟨11, 12, 13, 14⟩ ⟨1, 1⟩ ⟨1, 1⟩ [] []
     (⟨[⟨1, 2⟩], ⟨1, 2⟩, ⟨5, 6, 7, 8⟩, ⟨0, 0, 0, 0⟩, some ⟨5, 6, 7, 8⟩,
       some ⟨0, 0, 0, 0⟩⟩ : SRS PointE2)
     (⟨[⟨9, 10⟩], ⟨9, 10⟩, ⟨11, 12, 13, 14⟩, ⟨0, 0, 0, 0⟩, some ⟨11, 12, 13, 14⟩,
       some ⟨0, 0, 0, 0⟩⟩ : SRS PointE2) true 1 (by decide) (by decide)).2.2.2.1⟩

/-!
### C8

The claim: a chunk index in `[0, 256)` with no file after the scan makes
the format-C run fail with a missing-chunk error and return no SRS.  The
code does exactly this.
-/

/-- C8: when the filename scan completes and the chunk selection table it
built has no entry for some chunk index below 256, `TranslateBw6761SRS`
fails with the missing-chunk error (and hence returns no SRS). -/
theorem C8_theorem (g1 g2 : PointAff) (names : List String) (fs : Celo.FileSys)
    (table : List (Nat × String)) (i : Nat)
    (hscan : Celo.selectChunkFiles names = .ok table)
    (hi : i < Celo.TotalChunks)
    (hmiss : Celo.tableGet table i = none) :
    Celo.isMissingChunkErr (Celo.TranslateBw6761SRS g1 g2 names fs) = true := by
  have hl := translateLoop_missing g2 table fs
    Celo.TotalChunks 0 (Celo.initBw6SRS g1 g2) [] i (Nat.zero_le i)
    (by omega) hmiss
  simp only [Celo.TranslateBw6761SRS, hscan]
  cases hres : Celo.translateLoop g2 table fs Celo.TotalChunks 0
      (Celo.initBw6SRS g1 g2) [] with
  | error e => rw [hres] at hl; exact hl
  | ok p =>
    rw [hres] at hl
    exact absurd hl (by simp [Celo.isMissingChunkErr])

/-- C8 (witness): an empty directory scans to an empty table, which has no
file for chunk 0, and the run fails with the missing-chunk error. -/
theorem C8_witness :
    Celo.selectChunkFiles [] = .ok [] ∧
    0 < Celo.TotalChunks ∧
    Celo.tableGet [] 0 = none ∧
    Celo.isMissingChunkErr (Celo.TranslateBw6761SRS ⟨1, 2⟩ ⟨3, 4⟩ [] fsC1) = true :=
  ⟨by decide, by decide, by decide,
   C8_theorem ⟨1, 2⟩ ⟨3, 4⟩ [] fsC1 [] 0 (by decide) (by decide) (by decide)⟩

/-!
### C3

The claim: the format-A decoder returns the element whose integer value is
the little-endian interpretation of the reordered buffer `w3 w2 w1 w0`.
The code hands the reordered buffer to gnark `SetBytes`, which interprets
it as a BIG-endian integer (and reduces modulo the prime), so the decoded
value is the big-endian interpretation of `w3 w2 w1 w0` - equivalently,
words in little-endian significance order with big-endian bytes inside
each word - not the little-endian one.
-/

/-- C3 (counterexample): on the 32-byte buffer whose last byte is 1, the
decoder returns `2 ^ 192` (big-endian reading of the reordered buffer),
while the little-endian interpretation of the reordered buffer is
`2 ^ 56`. -/
theorem C3_counterexample :
    Main.extract32ByteFieldElement bufC3 = .ok (2 ^ 192, []) ∧
    leBytesToNat (Main.reorderWords bufC3) = 2 ^ 56 ∧
    (2 ^ 192 : Nat) ≠ 2 ^ 56 :=
  ⟨by decide, by decide, by decide⟩

/-- C3 (amended): for every 32-byte buffer split into four 8-byte words
`w0 w1 w2 w3`, the decoder returns the element whose integer value is the
BIG-endian interpretation of the reordered buffer `w3 w2 w1 w0`, reduced
modulo the BN254 modulus. -/
theorem C3_amended (w0 w1 w2 w3 : Bytes) (h0 : w0.length = 8) (h1 : w1.length = 8)
    (h2 : w2.length = 8) (h3 : w3.length = 8) :
    Main.extract32ByteFieldElement (w0 ++ (w1 ++ (w2 ++ w3))) =
      .ok (beBytesToNat (w3 ++ (w2 ++ (w1 ++ w0))) % pBn254, []) := by
  have hlen : (w0 ++ (w1 ++ (w2 ++ w3))).length = 32 := by
    simp [h0, h1, h2, h3]
  have hd24 : (w0 ++ (w1 ++ (w2 ++ w3))).drop 24 = w3 := by
    rw [show (24 : Nat) = 8 + 16 from rfl, drop_append_len h0,
        show (16 : Nat) = 8 + 8 from rfl, drop_append_len h1, drop_append_exact h2]
  have hd16 : (w0 ++ (w1 ++ (w2 ++ w3))).drop 16 = w2 ++ w3 := by
    rw [show (16 : Nat) = 8 + 8 from rfl, drop_append_len h0, drop_append_exact h1]
  have hd8 : (w0 ++ (w1 ++ (w2 ++ w3))).drop 8 = w1 ++ (w2 ++ w3) :=
    drop_append_exact h0
  have hreo : Main.reorderWords (w0 ++ (w1 ++ (w2 ++ w3))) =
      w3 ++ (w2 ++ (w1 ++ w0)) := by
    rw [Main.reorderWords, show List.range 4 = [0, 1, 2, 3] from rfl]
    simp only [List.foldl_cons, List.foldl_nil]
    norm_num
    rw [hd24, hd16, hd8]
    rw [take_append_exact h2, take_append_exact h1, take_append_exact h0]
    rw [← h3, List.take_length]
  simp only [Main.extract32ByteFieldElement, hlen]
  rw [if_neg (by omega)]
  rw [List.take_of_length_le (le_of_eq hlen), hreo,
      List.drop_eq_nil_of_le (le_of_eq hlen)]

/-- C3 (witness): the amended theorem applied to four concrete words. -/
theorem C3_witness :
    Main.extract32ByteFieldElement
        (List.replicate 8 1 ++ (List.replicate 8 2 ++ (List.replicate 8 3 ++ List.replicate 8 4))) =
      .ok (beBytesToNat
        (List.replicate 8 4 ++ (List.replicate 8 3 ++ (List.replicate 8 2 ++ List.replicate 8 1)))
          % pBn254, []) :=
  C3_amended (List.replicate 8 1) (List.replicate 8 2) (List.replicate 8 3)
    (List.replicate 8 4) (by decide) (by decide) (by decide) (by decide)

/-!
### C4

The claim: every field-element decoder fails on an input denoting an
integer at or above the modulus.  The format-B and format-C decoders
(gnark `LittleEndian.Element`) do; the format-A decoder (gnark `SetBytes`)
silently reduces modulo the prime and never fails on a full-length buffer.
-/

/-- A successful format-B decode is always below the BLS12-377 modulus. -/
theorem extract48_lt {s : Bytes} {v : Nat} {r : Bytes}
    (h : Aleo.extract48ByteFieldElement s = .ok (v, r)) : v < pBls12377 := by
  simp only [Aleo.extract48ByteFieldElement] at h
  split at h
  · simp at h
  · split at h
    case isTrue hv =>
      simp only [Except.ok.injEq, Prod.mk.injEq] at h
      rw [← h.1]
      exact hv
    case isFalse => simp at h

/-- A successful format-C decode is always below the BW6-761 modulus. -/
theorem extractBw6_lt {d : Bytes} {v : Nat}
    (h : Celo.extractBw6FieldElement d = .ok v) : v < pBw6761 := by
  simp only [Celo.extractBw6FieldElement] at h
  split at h
  · simp at h
  · split at h
    case isTrue hv =>
      simp only [Except.ok.injEq] at h
      rw [← h]
      exact hv
    case isFalse => simp at h

/-- The format-A decoder never fails on a full-length buffer: it reduces
the decoded integer modulo the prime instead. -/
theorem extract32_total {s : Bytes} (h : 32 ≤ s.length) :
    Main.extract32ByteFieldElement s =
      .ok (beBytesToNat (Main.reorderWords (s.take 32)) % pBn254, s.drop 32) := by
  simp only [Main.extract32ByteFieldElement]
  rw [if_neg (by omega)]

/-- C4 (counterexample): the all-`0xFF` 32-byte buffer denotes
`2 ^ 256 - 1`, at or above the BN254 modulus, yet the format-A decoder
succeeds, returning the value reduced modulo the prime. -/
theorem C4_counterexample :
    Main.extract32ByteFieldElement (List.replicate 32 255) =
      .ok ((2 ^ 256 - 1) % pBn254, []) ∧
    pBn254 ≤ 2 ^ 256 - 1 ∧
    (2 ^ 256 - 1) % pBn254 ≠ 2 ^ 256 - 1 :=
  ⟨by decide, by decide, by decide⟩

/-- C4 (amended): the format-B and format-C decoders only return values
below their moduli (out-of-range bytes are a hard failure), while the
format-A decoder succeeds on any full-length buffer, silently reducing the
big-endian value of the reordered words modulo the BN254 prime. -/
theorem C4_amended (s48 : Bytes) (v : Nat) (r48 : Bytes) (d96 : Bytes) (v96 : Nat)
    (s32 : Bytes)
    (ha : Aleo.extract48ByteFieldElement s48 = .ok (v, r48))
    (hb : Celo.extractBw6FieldElement d96 = .ok v96)
    (hc : 32 ≤ s32.length) :
    v < pBls12377 ∧ v96 < pBw6761 ∧
    Main.extract32ByteFieldElement s32 =
      .ok (beBytesToNat (Main.reorderWords (s32.take 32)) % pBn254, s32.drop 32) :=
  ⟨extract48_lt ha, extractBw6_lt hb, extract32_total hc⟩

/-- C4 (witness): the amended theorem applied to concrete buffers. -/
theorem C4_witness :
    (0 : Nat) < pBls12377 ∧ (0 : Nat) < pBw6761 ∧
    Main.extract32ByteFieldElement (List.replicate 32 255) =
      .ok (beBytesToNat (Main.reorderWords ((List.replicate 32 255).take 32)) % pBn254,
        (List.replicate 32 255).drop 32) :=
  C4_amended (List.replicate 48 0) 0 [] (List.replicate 96 0) 0
    (List.replicate 32 255) (by decide) (by decide) (by decide)

/-!
### C5

The claim: a successful format-A run yields a G1 sequence of length
`1 + sum(G1PointsN)` over the processed (name-matching) files, with the
decoded points appended in file order after the generator.  The code does
exactly this (the processed files are those matching the transcript name
filter).
-/

/-- C5: when `ConstructSRS` succeeds and every matched file carries a
non-negative `G1PointsN`, the resulting G1 sequence has length one plus the
sum of the metadata counts, and is the generator followed by the decoded
points in file order. -/
theorem C5_theorem (g1 : PointAff) (g2 : PointE2) (files : List (String × Bytes))
    (srs : SRS PointE2) (w : Bool)
    (hok : Main.ConstructSRS g1 g2 files = .ok (srs, w))
    (hpos : ∀ f ∈ Main.matchedFiles files, 0 ≤ Main.fileG1PointsN f.2) :
    (srs.PkG1.length : Int) =
      1 + ((Main.matchedFiles files).map (fun f => Main.fileG1PointsN f.2)).sum ∧
    srs.PkG1 = g1 ::
      ((Main.matchedFiles files).map (fun f => Main.filePoints f.2)).flatten := by
  obtain ⟨hpk, _, _, _, hall⟩ := ConstructSRS_ok hok
  refine ⟨?_, hpk⟩
  rw [hpk]
  simp only [List.length_cons, List.length_flatten, List.map_map]
  have hmapeq :
      (Main.matchedFiles files).map (List.length ∘ fun f => Main.filePoints f.2) =
      (Main.matchedFiles files).map (fun f => (Main.fileG1PointsN f.2).toNat) :=
    List.map_congr_left (fun f hf => by simp [Function.comp, hall f hf])
  rw [hmapeq]
  push_cast [sum_toNat_cast _ _ hpos]
  ring

/-- C5 (witness): a single valid transcript file with one G1 point yields a
two-element G1 sequence (generator plus the point). -/
theorem C5_witness :
    (((⟨[⟨1, 2⟩, ⟨0, 0⟩], ⟨1, 2⟩, ⟨5, 6, 7, 8⟩, ⟨0, 0, 0, 0⟩, some ⟨5, 6, 7, 8⟩,
        some ⟨0, 0, 0, 0⟩⟩ : SRS PointE2).PkG1.length : Int) = 1 +
      ((Main.matchedFiles [("transcript0.dat", contentOnePoint)]).map
        (fun f => Main.fileG1PointsN f.2)).sum) ∧
    (⟨[⟨1, 2⟩, ⟨0, 0⟩], ⟨1, 2⟩, ⟨5, 6, 7, 8⟩, ⟨0, 0, 0, 0⟩, some ⟨5, 6, 7, 8⟩,
        some ⟨0, 0, 0, 0⟩⟩ : SRS PointE2).PkG1 = ⟨1, 2⟩ ::
      ((Main.matchedFiles [("transcript0.dat", contentOnePoint)]).map
        (fun f => Main.filePoints f.2)).flatten :=
  C5_theorem ⟨1, 2⟩ ⟨5, 6, 7, 8⟩ [("transcript0.dat", contentOnePoint)]
    ⟨[⟨1, 2⟩, ⟨0, 0⟩], ⟨1, 2⟩, ⟨5, 6, 7, 8⟩, ⟨0, 0, 0, 0⟩, some ⟨5, 6, 7, 8⟩,
      some ⟨0, 0, 0, 0⟩⟩ true (by decide) (by decide)

/-!
### C6

The claim: the format-C point count is `floor((S-64)/(4*point_size))`
(lower half) or `floor((S-64)/point_size) - 1` (upper half) for every file
size `S`.  Go `int64` division truncates toward zero, which equals the
floor only when `S ≥ 64`; for a file smaller than the 64-byte hash the code
returns `0` (lower half) or `-1` (upper half) instead of the floor value.
-/

/-- C6 (counterexample): on an empty file (`S = 0`) the code computes 0
for a lower-half chunk and -1 for an upper-half chunk, while the floor
formulas give -1 and -2. -/
theorem C6_counterexample :
    Celo.calculateChunkSize 0 0 = 0 ∧
    Int.fdiv (0 - 64) (4 * 192) = -1 ∧ ((0 : Int) ≠ -1) ∧
    Celo.calculateChunkSize 128 0 = -1 ∧
    Int.fdiv (0 - 64) 192 - 1 = -2 ∧ ((-1 : Int) ≠ -2) :=
  ⟨by decide, by decide, by decide, by decide, by decide, by decide⟩

/-- C6 (amended): for every chunk file at least as large as the 64-byte
hash, the computed count is exactly the floor formula of the claim (Go
truncation and flooring agree on the non-negative numerator). -/
theorem C6_amended (chunkNum : Nat) (S : Int) (h : 64 ≤ S) :
    Celo.calculateChunkSize chunkNum S =
      (if chunkNum < Celo.ChunkHalfwayPoint then Int.fdiv (S - 64) (4 * 192)
       else Int.fdiv (S - 64) 192 - 1) := by
  obtain ⟨n, hn⟩ := Int.le.dest h
  have hS : S - 64 = (n : Int) := by omega
  simp only [Celo.calculateChunkSize, Celo.HashSize, Celo.G1PointSize, Nat.cast_ofNat]
  rw [hS]
  split
  · exact (Int.fdiv_eq_tdiv (by positivity) (by norm_num)).symm
  · rw [Int.fdiv_eq_tdiv (by positivity) (by norm_num)]

/-- C6 (witness): the amended theorem at a lower-half chunk of an 832-byte
file. -/
theorem C6_witness :
    Celo.calculateChunkSize 0 832 =
      (if 0 < Celo.ChunkHalfwayPoint then Int.fdiv (832 - 64) (4 * 192)
       else Int.fdiv (832 - 64) 192 - 1) :=
  C6_amended 0 832 (by decide)

/-!
### C7

The claim: a format-B file with a `g2` name marker is processed by first
decoding a field-element-sized header block holding a little-endian 8-byte
point count, then decoding one G2 point into `G2[1]`.  The code reads no
header at all: `readG2SetupFile` decodes the four 48-byte field elements
straight from the start of the file.
-/

/-- C7 (counterexample): on a five-element file holding the values
1, 2, 3, 4, 5, the source stores the point built from the first four
blocks, while the spec-modelled reader (which skips a header block first)
would store the point built from blocks two to five. -/
theorem C7_counterexample :
    (Aleo.readG2SetupFile contentC7 (Aleo.initBlsSRS ⟨1, 2⟩ ⟨0, 0, 0, 0⟩)).map
      (fun s => s.VkG2_1) = .ok ⟨1, 2, 3, 4⟩ ∧
    (Aleo.readG2SetupFileSpecModel contentC7 (Aleo.initBlsSRS ⟨1, 2⟩ ⟨0, 0, 0, 0⟩)).map
      (fun s => s.VkG2_1) = .ok ⟨2, 3, 4, 5⟩ ∧
    (PointE2.mk 1 2 3 4) ≠ ⟨2, 3, 4, 5⟩ :=
  ⟨by decide, by decide, by decide⟩

/-- C7 (amended): a file whose lowercased name contains `g2` is processed
by decoding four consecutive 48-byte little-endian field elements from the
very start of the file (no header or count block) as `X.A0`, `X.A1`,
`Y.A0`, `Y.A1` of the point stored in `G2[1]`. -/
theorem C7_amended (name : String) (content : Bytes) (srs : SRS PointE2)
    (hname : Aleo.nameHasG2Marker name = true)
    (hlen : 192 ≤ content.length)
    (h0 : leBytesToNat (content.take 48) < pBls12377)
    (h1 : leBytesToNat ((content.drop 48).take 48) < pBls12377)
    (h2 : leBytesToNat ((content.drop 96).take 48) < pBls12377)
    (h3 : leBytesToNat ((content.drop 144).take 48) < pBls12377) :
    Aleo.processAleoFile name content srs =
      .ok { srs with VkG2_1 :=
        ⟨leBytesToNat (content.take 48),
         leBytesToNat ((content.drop 48).take 48),
         leBytesToNat ((content.drop 96).take 48),
         leBytesToNat ((content.drop 144).take 48)⟩ } := by
  have l1 : (content.drop 48).length = content.length - 48 := List.length_drop 48 content
  have l2 : (content.drop 96).length = content.length - 96 := List.length_drop 96 content
  have l3 : (content.drop 144).length = content.length - 144 := List.length_drop 144 content
  have d1 : (content.drop 48).drop 48 = content.drop 96 := by
    rw [List.drop_drop]
  have d2 : (content.drop 96).drop 48 = content.drop 144 := by
    rw [List.drop_drop]
  have e0 : Aleo.extract48ByteFieldElement content =
      .ok (leBytesToNat (content.take 48), content.drop 48) := by
    simp only [Aleo.extract48ByteFieldElement]
    rw [if_neg (by omega), if_pos h0]
  have e1 : Aleo.extract48ByteFieldElement (content.drop 48) =
      .ok (leBytesToNat ((content.drop 48).take 48), content.drop 96) := by
    simp only [Aleo.extract48ByteFieldElement]
    rw [if_neg (by omega), if_pos h1, d1]
  have e2 : Aleo.extract48ByteFieldElement (content.drop 96) =
      .ok (leBytesToNat ((content.drop 96).take 48), content.drop 144) := by
    simp only [Aleo.extract48ByteFieldElement]
    rw [if_neg (by omega), if_pos h2, d2]
  have e3 : Aleo.extract48ByteFieldElement (content.drop 144) =
      .ok (leBytesToNat ((content.drop 144).take 48), content.drop 192) := by
    simp only [Aleo.extract48ByteFieldElement]
    rw [if_neg (by omega), if_pos h3, List.drop_drop]
  simp only [Aleo.processAleoFile, hname, if_pos, Aleo.readG2SetupFile, e0, e1, e2, e3]

/-- C7 (witness): the amended theorem on the concrete five-element file
(the point is read from its first four blocks). -/
theorem C7_witness :
    Aleo.processAleoFile "bls_g2.bin" contentC7 (Aleo.initBlsSRS ⟨1, 2⟩ ⟨0, 0, 0, 0⟩) =
      .ok { Aleo.initBlsSRS ⟨1, 2⟩ ⟨0, 0, 0, 0⟩ with VkG2_1 :=
        ⟨leBytesToNat (contentC7.take 48),
         leBytesToNat ((contentC7.drop 48).take 48),
         leBytesToNat ((contentC7.drop 96).take 48),
         leBytesToNat ((contentC7.drop 144).take 48)⟩ } :=
  C7_amended "bls_g2.bin" contentC7 (Aleo.initBlsSRS ⟨1, 2⟩ ⟨0, 0, 0, 0⟩)
    (by decide) (by decide) (by decide) (by decide) (by decide) (by decide)

/-!
### C9

The claim: the format-A reader rejects a negative `G1PointsN` and reports
gaps in the `TranscriptN` coverage.  The code checks neither: a negative
count makes the point loop read nothing and the file succeed, `TranscriptN`
is never inspected after decoding, and the only report is the warning when
the number of processed files differs from 20.
-/

/-- C9 (counterexample): a transcript file whose header carries
`G1PointsN = -1` is accepted without error - `ReadTranscriptFile` returns
the SRS unchanged instead of rejecting the negative count. -/
theorem C9_counterexample :
    Main.ReadTranscriptFile contentNeg (Main.initBnSRS ⟨1, 2⟩ ⟨5, 6, 7, 8⟩) =
      .ok (Main.initBnSRS ⟨1, 2⟩ ⟨5, 6, 7, 8⟩) ∧
    Main.fileG1PointsN contentNeg = -1 ∧ ((-1 : Int) < 0) :=
  ⟨by decide, by decide, by decide⟩

/-- C9 (amended): the reader does not validate the metadata: a file whose
parsed header has a negative `G1PointsN` (and no G2 record) is read
successfully with zero points, and the only coverage-related report of a
run is the warning flag, which depends solely on the number of matched
files being different from 20 - `TranscriptN` values are never checked. -/
theorem C9_amended (content : Bytes) (srs : SRS PointE2)
    (m : Main.TranscriptMetadata) (rest : Bytes) (g1 : PointAff) (g2 : PointE2)
    (files : List (String × Bytes)) (srs2 : SRS PointE2) (w : Bool)
    (hm : Main.ReadMetadata content = .ok (m, rest))
    (hneg : m.G1PointsN < 0) (hg2 : m.G2PointsN = 0)
    (hrun : Main.ConstructSRS g1 g2 files = .ok (srs2, w)) :
    Main.ReadTranscriptFile content srs = .ok srs ∧
    w = decide ((Main.matchedFiles files).length ≠ 20) := by
  constructor
  · simp only [Main.ReadTranscriptFile, hm, Main.ReadG1Points,
      Int.toNat_of_nonpos (le_of_lt hneg), Main.ReadG1PointsAux, hg2]
    simp
  · exact (ConstructSRS_ok hrun).2.2.2.1

/-- C9 (witness): the amended theorem on the concrete negative-count file
and an empty run. -/
theorem C9_witness :
    Main.ReadTranscriptFile contentNeg (Main.initBnSRS ⟨1, 2⟩ ⟨5, 6, 7, 8⟩) =
      .ok (Main.initBnSRS ⟨1, 2⟩ ⟨5, 6, 7, 8⟩) ∧
    true = decide ((Main.matchedFiles ([] : List (String × Bytes))).length ≠ 20) :=
  C9_amended contentNeg (Main.initBnSRS ⟨1, 2⟩ ⟨5, 6, 7, 8⟩)
    ⟨0, 20, 0, 0, -1, 0, 0⟩ [] ⟨1, 2⟩ ⟨5, 6, 7, 8⟩ []
    ⟨[⟨1, 2⟩], ⟨1, 2⟩, ⟨5, 6, 7, 8⟩, ⟨0, 0, 0, 0⟩, some ⟨5, 6, 7, 8⟩, some ⟨0, 0, 0, 0⟩⟩
    true (by decide) (by decide) (by decide) (by decide)

/-!
### C10

The claim: in the format-C chunk processor an EOF after at least one full
point keeps the points, warns and returns success, the only error being an
EOF before the first point.  This is exactly what happens for chunks other
than 0; for chunk 0 the code goes on to read the G2 section from the
exhausted stream, which fails, so `processChunk` returns an error (the
appended points still persist in the mutated SRS).
-/

/-- One-step evaluation of the G1 loop on an exhausted stream at `i = 0`:
an EOF before the first point is an error. -/
theorem processG1Loop_nil (fuel : Nat) (srs : SRS PointAff) :
    Celo.processG1Loop (fuel + 1) 0 [] srs =
      (srs, [], false, some "unexpected EOF at beginning of file") := by
  show Celo.processG1Loop (Nat.succ fuel) 0 [] srs = _
  simp [Celo.processG1Loop]

/-- One-step evaluation of the G1 loop on an exhausted stream at `i ≠ 0`:
the loop warns and breaks, keeping the SRS. -/
theorem processG1Loop_nil_pos (fuel i : Nat) (srs : SRS PointAff) (hi : i ≠ 0) :
    Celo.processG1Loop (fuel + 1) i [] srs = (srs, [], true, none) := by
  show Celo.processG1Loop (Nat.succ fuel) i [] srs = _
  simp [Celo.processG1Loop, hi]

/-- The BW6-761 modulus fits in 96 bytes. -/
theorem pBw6761_lt_pow : pBw6761 < 256 ^ 96 := by decide

/-- Decoding the 96-byte little-endian encoding of an in-range value
succeeds and returns the value. -/
theorem extractBw6_encode (v : Nat) (hv : v < pBw6761) :
    Celo.extractBw6FieldElement (natToLeBytes 96 v) = .ok v := by
  simp only [Celo.extractBw6FieldElement, Celo.PointCoordinateSize,
    natToLeBytes_length]
  rw [if_neg (by omega), leBytesToNat_natToLeBytes 96 v
    (lt_trans hv pBw6761_lt_pow), if_pos hv]

/-- One step of the G1 loop on a stream beginning with a full, decodable,
valid point: the point is appended and the loop continues on the rest. -/
theorem processG1Loop_step (fuel i : Nat) (b s2 : Bytes) (pt : PointAff)
    (srs : SRS PointAff) (hb : b.length = 192)
    (hx : Celo.extractBw6FieldElement (b.take 96) = .ok pt.X)
    (hy : Celo.extractBw6FieldElement (b.drop 96) = .ok pt.Y)
    (hcurve : Celo.isOnCurveG1 pt = true) (hinf : Celo.isInfinityPoint pt = false) :
    Celo.processG1Loop (fuel + 1) i (b ++ s2) srs =
      Celo.processG1Loop fuel (i + 1) s2 { srs with PkG1 := srs.PkG1 ++ [pt] } := by
  have hlen : (b ++ s2).length = 192 + s2.length := by simp [hb]
  have htake : (b ++ s2).take 192 = b := take_append_exact hb
  have hdrop : (b ++ s2).drop 192 = s2 := drop_append_exact hb
  have heta : PointAff.mk pt.X pt.Y = pt := rfl
  show Celo.processG1Loop (Nat.succ fuel) i (b ++ s2) srs = _
  simp only [Celo.processG1Loop, hlen, Celo.G1PointSize, Celo.PointCoordinateSize]
  norm_num
  rw [htake, hx, hy]
  simp only [heta, hinf, hcurve, Bool.not_true, Bool.or_false, Bool.false_or]
  norm_num
  rw [hdrop]

/-- The on-disk point encoding is 192 bytes long. -/
theorem encodeG1Point_length (pt : PointAff) : (Celo.encodeG1Point pt).length = 192 := by
  simp [Celo.encodeG1Point, natToLeBytes_length]

/-- Evaluation of the G1 loop on a stream holding a run of full, valid
points followed by less than one point of data, with more iterations
remaining than points: every point is appended in order, then the EOF (or
unexpected EOF on a partial trailing point) warns and breaks - unless no
point was ever read at index 0, which the callers exclude. -/
theorem processG1Loop_points_eof (l : List PointAff) :
    ∀ (fuel i : Nat) (tail : Bytes) (srs : SRS PointAff),
    (∀ pt ∈ l, pt.X < pBw6761 ∧ pt.Y < pBw6761 ∧
      Celo.isOnCurveG1 pt = true ∧ Celo.isInfinityPoint pt = false) →
    l.length < fuel → tail.length < Celo.G1PointSize → 0 < i + l.length →
    Celo.processG1Loop fuel i (Celo.encodeG1Points l ++ tail) srs =
      ({ srs with PkG1 := srs.PkG1 ++ l }, [], true, none) := by
  induction l with
  | nil =>
    intro fuel i tail srs _ hfuel htail hpos
    obtain ⟨f, rfl⟩ : ∃ f, fuel = f + 1 := ⟨fuel - 1, by omega⟩
    have hi : i ≠ 0 := by simp at hpos; omega
    simp only [Celo.encodeG1Points, List.map_nil, List.flatten_nil, List.nil_append]
    by_cases ht : tail = []
    · subst ht
      rw [processG1Loop_nil_pos f i srs hi]
      simp
    · have h0 : (tail.length == 0) = false := by
        simp [List.length_eq_zero, ht]
      show Celo.processG1Loop (Nat.succ f) i tail srs = _
      simp only [Celo.processG1Loop, h0]
      rw [if_pos htail]
      simp
  | cons pt l2 ih =>
    intro fuel i tail srs hvalid hfuel htail hpos
    obtain ⟨f, rfl⟩ : ∃ f, fuel = f + 1 := ⟨fuel - 1, by omega⟩
    obtain ⟨hx, hy, hcurve, hinf⟩ := hvalid pt (by simp)
    have hstream : Celo.encodeG1Points (pt :: l2) ++ tail =
        Celo.encodeG1Point pt ++ (Celo.encodeG1Points l2 ++ tail) := by
      simp [Celo.encodeG1Points, List.append_assoc]
    have hex : Celo.extractBw6FieldElement ((Celo.encodeG1Point pt).take 96) = .ok pt.X := by
      simp only [Celo.encodeG1Point]
      rw [take_append_exact (natToLeBytes_length 96 pt.X)]
      exact extractBw6_encode pt.X hx
    have hey : Celo.extractBw6FieldElement ((Celo.encodeG1Point pt).drop 96) = .ok pt.Y := by
      simp only [Celo.encodeG1Point]
      rw [drop_append_exact (natToLeBytes_length 96 pt.X)]
      exact extractBw6_encode pt.Y hy
    rw [hstream, processG1Loop_step f i (Celo.encodeG1Point pt)
      (Celo.encodeG1Points l2 ++ tail) pt srs (encodeG1Point_length pt) hex hey hcurve hinf]
    rw [ih f (i + 1) tail _ (fun q hq => hvalid q (List.mem_cons_of_mem pt hq))
      (by simp only [List.length_cons] at hfuel; omega) htail (by omega)]
    simp [List.append_assoc]

/-- C10 (counterexample): a chunk-0 file whose `Stat` size promises two
points but whose content ends after one valid point: the point is read and
appended and the EOF warning is printed, but `processChunk` then fails to
read the G2 section and returns an error rather than success. -/
theorem C10_counterexample :
    Celo.processChunk ⟨3, 4⟩ 0 1600 truncContent (Celo.initBw6SRS ⟨1, 2⟩ ⟨3, 4⟩) =
      ⟨⟨[⟨1, 0⟩], ⟨1, 2⟩, ⟨3, 4⟩, ⟨0, 0⟩, none, none⟩, true,
        some "failed to read G2 generator"⟩ ∧
    some "failed to read G2 generator" ≠ (none : Option String) :=
  ⟨by decide, by decide⟩

/-- C10 (amended): for a chunk other than 0, whenever the content after the
hash is any run of at least one full valid point that ends before the
count computed from the `Stat` size (with any partial trailing data shorter
than a point - the `io.ErrUnexpectedEOF` case - or none at all - the
`io.EOF` case), all points read are kept in the SRS, the warning is
printed, and `processChunk` returns success; an EOF before the first point
is an error that leaves the SRS unchanged. -/
theorem C10_amended (gen2 : PointAff) (chunkNum : Nat) (srs : SRS PointAff)
    (fileSize : Int) (l : List PointAff) (tail : Bytes)
    (hnz : chunkNum ≠ 0)
    (hvalid : ∀ pt ∈ l, pt.X < pBw6761 ∧ pt.Y < pBw6761 ∧
      Celo.isOnCurveG1 pt = true ∧ Celo.isInfinityPoint pt = false)
    (hone : 1 ≤ l.length)
    (hcount : (l.length : Int) < Celo.calculateChunkSize chunkNum fileSize)
    (htail : tail.length < Celo.G1PointSize) :
    Celo.processChunk gen2 chunkNum fileSize
        (List.replicate 64 0 ++ (Celo.encodeG1Points l ++ tail)) srs =
      ⟨{ srs with PkG1 := srs.PkG1 ++ l }, true, none⟩ ∧
    Celo.processChunk gen2 chunkNum fileSize (List.replicate 64 0) srs =
      ⟨srs, false, some "unexpected EOF at beginning of file"⟩ := by
  have hnzb : (chunkNum == 0) = false := by simp [hnz]
  have hk : l.length < (Celo.calculateChunkSize chunkNum fileSize).toNat := by omega
  have hdrop : (List.replicate 64 (0 : Nat) ++ (Celo.encodeG1Points l ++ tail)).drop 64 =
      Celo.encodeG1Points l ++ tail :=
    drop_append_exact (List.length_replicate 64 0)
  have hdrop2 : (List.replicate 64 (0 : Nat)).drop 64 = [] :=
    List.drop_eq_nil_of_le (le_of_eq (List.length_replicate 64 0))
  constructor
  · simp only [Celo.processChunk, Celo.HashSize, hdrop]
    rw [processG1Loop_points_eof l (Celo.calculateChunkSize chunkNum fileSize).toNat 0
      tail srs hvalid hk htail (by omega)]
    simp [hnzb]
  · simp only [Celo.processChunk, Celo.HashSize, hdrop2]
    obtain ⟨k, hkk⟩ : ∃ k, (Celo.calculateChunkSize chunkNum fileSize).toNat = k + 1 :=
      ⟨(Celo.calculateChunkSize chunkNum fileSize).toNat - 1, by omega⟩
    rw [hkk, processG1Loop_nil k srs]

/-- C10 (witness): the amended theorem at chunk 5 of a 3136-byte `Stat`
size (count 4), with two copies of the on-curve point `(1, 0)` followed by
a 5-byte partial point. -/
theorem C10_witness :
    Celo.processChunk ⟨3, 4⟩ 5 3136
        (List.replicate 64 0 ++ (Celo.encodeG1Points [⟨1, 0⟩, ⟨1, 0⟩] ++ List.replicate 5 0))
        (Celo.initBw6SRS ⟨1, 2⟩ ⟨3, 4⟩) =
      ⟨{ Celo.initBw6SRS ⟨1, 2⟩ ⟨3, 4⟩ with
          PkG1 := (Celo.initBw6SRS ⟨1, 2⟩ ⟨3, 4⟩).PkG1 ++ [⟨1, 0⟩, ⟨1, 0⟩] }, true, none⟩ ∧
    Celo.processChunk ⟨3, 4⟩ 5 3136 (List.replicate 64 0) (Celo.initBw6SRS ⟨1, 2⟩ ⟨3, 4⟩) =
      ⟨Celo.initBw6SRS ⟨1, 2⟩ ⟨3, 4⟩, false, some "unexpected EOF at beginning of file"⟩ :=
  C10_amended ⟨3, 4⟩ 5 (Celo.initBw6SRS ⟨1, 2⟩ ⟨3, 4⟩) 3136 [⟨1, 0⟩, ⟨1, 0⟩]
    (List.replicate 5 0) (by decide) (by decide) (by decide) (by decide) (by decide)

end SRSVerify
